import Mathlib

/-!
GPIO LED character-device driver (`examples/led.c`).

A shallow embedding of the driver: the module globals, the three entry points
`device_write`, `led_init` and `led_exit`, and a small model of the kernel
services they call (character-device registration, device classes and nodes,
GPIO lines, `copy_from_user`, `printk`).  Every kernel call the driver makes is
recorded, with its arguments and its result, in a chronological trace.
-/

namespace Led

/-! ## Constants of the source file and of the kernel headers it uses -/

/-- Source: `#define SUCCESS 0`. -/
def SUCCESS : Int := 0

/-- Source: `#define DEVICE_NAME "gpio_led"`. -/
def DEVICE_NAME : String := "gpio_led"

/-- Source: `#define MAJOR_NUM 100`. -/
def MAJOR_NUM : Nat := 100

/-- Source: `#define BUF_LEN 2`. -/
def BUF_LEN : Nat := 2

/-- Kernel header `asm/errno.h`: bad address. -/
def EFAULT : Int := 14

/-- Kernel header `asm/errno.h`: device or resource busy. -/
def EBUSY : Int := 16

/-- Kernel header `asm/errno.h`: file exists. -/
def EEXIST : Int := 17

/-- Kernel header `linux/err.h`: the largest errno an `ERR_PTR` can carry. -/
def MAX_ERRNO : Nat := 4095

/-- Kernel header `linux/gpio.h`: `GPIOF_DIR_OUT` is `(0 << 0)`. -/
def GPIOF_DIR_OUT : Nat := 0 <<< 0

/-- Kernel header `linux/gpio.h`: `GPIOF_INIT_LOW` is `(0 << 1)`. -/
def GPIOF_INIT_LOW : Nat := 0 <<< 1

/-- Kernel header `linux/gpio.h`: `(GPIOF_DIR_OUT | GPIOF_INIT_LOW)`. -/
def GPIOF_OUT_INIT_LOW : Nat := GPIOF_DIR_OUT ||| GPIOF_INIT_LOW

/-- Kernel header `linux/kdev_t.h`: `#define MINORBITS 20`. -/
def MINORBITS : Nat := 20

/-- Kernel header `linux/kdev_t.h`: `(((ma) << MINORBITS) | (mi))`. -/
def MKDEV (ma mi : Nat) : Nat := (ma <<< MINORBITS) ||| mi

/-- The character `'0'` as a byte. -/
def CHAR_0 : Nat := 48

/-- The character `'1'` as a byte. -/
def CHAR_1 : Nat := 49

/-- Kernel header `linux/gpio.h`: `struct gpio`. -/
structure gpio where
  gpio : Nat
  flags : Nat
  label : String
  deriving DecidableEq, Repr

/-- Source: `static struct gpio leds[] = { { 4, GPIOF_OUT_INIT_LOW, "LED 1" } };` -/
def leds : List gpio := [⟨4, GPIOF_OUT_INIT_LOW, "LED 1"⟩]

/-- Source: `leds[0]`. -/
def leds0 : gpio := leds.headD ⟨0, 0, ""⟩

/-! ## Kernel pointers -/

/-- A pointer returned by the kernel: `NULL`, an errno encoded with `ERR_PTR`,
or a valid handle. -/
inductive Ptr (α : Type) where
  | null : Ptr α
  | err (e : Int) : Ptr α
  | ok (a : α) : Ptr α
  deriving DecidableEq, Repr

/-- Kernel header `linux/err.h`: `IS_ERR`. -/
def IS_ERR {α : Type} : Ptr α → Bool
  | .err _ => true
  | _ => false

/-- Kernel header `linux/err.h`: `PTR_ERR`; meaningful on `IS_ERR` pointers
only (the driver calls it nowhere else). -/
def PTR_ERR {α : Type} : Ptr α → Int
  | .err e => e
  | _ => 0

/-! ## The trace of kernel calls -/

/-- The `printk` levels the driver uses. -/
inductive LogLevel where
  | info | warn | err | alert
  deriving DecidableEq, Repr

/-- One kernel call made by the driver, with its arguments and its result. -/
inductive Event where
  | register_chrdev (major : Nat) (name : String) (ret : Int)
  | class_create (name : String) (res : Ptr String)
  | device_create (cls : Ptr String) (devt : Nat) (name : String) (res : Ptr Nat)
  | gpio_request (gpio : Nat) (label : String) (ret : Int)
  | gpio_direction_output (gpio : Nat) (value : Int) (ret : Int)
  | gpio_set_value (gpio : Nat) (value : Int)
  | gpio_free (gpio : Nat)
  | device_destroy (cls : Ptr String) (devt : Nat)
  | class_destroy (cls : Ptr String)
  | unregister_chrdev (major : Nat) (name : String)
  | copy_from_user (n : Nat) (notCopied : Nat)
  | printk (level : LogLevel) (fmt : String)
  deriving DecidableEq, Repr

/-! ## The host: kernel resource tables -/

/-- Host conditions outside the resource tables: for each fallible kernel
service an errno it reports (allocation failure, hardware rejecting the
request, ...).  A value outside `1 .. MAX_ERRNO` means the service works. -/
structure Faults where
  register_chrdev : Nat
  class_create : Nat
  device_create : Nat
  gpio_request : Nat
  gpio_direction_output : Nat
  deriving DecidableEq, Repr

/-- The kernel state the driver acts on. -/
structure Host where
  /-- major numbers with a registered character device -/
  chrdevs : List Nat
  /-- names of the existing device classes -/
  classes : List String
  /-- existing device nodes: class name and device number -/
  devices : List (String × Nat)
  /-- claimed GPIO lines -/
  gpios : List Nat
  /-- GPIO lines configured as outputs -/
  outputs : List Nat
  /-- GPIO lines whose level is high -/
  high : List Nat
  faults : Faults
  deriving DecidableEq, Repr

/-- Whether an errno of `Faults` is a real errno, so that the service fails. -/
def injected (e : Nat) : Bool := decide (0 < e) && decide (e ≤ MAX_ERRNO)

/-- The level of a GPIO line: `true` is high ("on"). -/
def Host.lineValue (h : Host) (g : Nat) : Bool := h.high.contains g

/-- The four resource tables of the host: registered identities, groups,
nodes and claimed lines. -/
def Host.resources (h : Host) : List Nat × List String × List (String × Nat) × List Nat :=
  (h.chrdevs, h.classes, h.devices, h.gpios)

/-- Kernel `register_chrdev` for a fixed (non-zero) major: `-EBUSY` when the
major is taken, `0` on success. -/
def register_chrdev (major : Nat) (_name : String) (h : Host) : Int × Host :=
  if injected h.faults.register_chrdev then (-(h.faults.register_chrdev : Int), h)
  else if major ∈ h.chrdevs then (-EBUSY, h)
  else (0, { h with chrdevs := major :: h.chrdevs })

/-- Kernel `unregister_chrdev`. -/
def unregister_chrdev (major : Nat) (_name : String) (h : Host) : Host :=
  { h with chrdevs := h.chrdevs.erase major }

/-- Kernel `class_create`: an `ERR_PTR` on failure, else the new class. -/
def class_create (name : String) (h : Host) : Ptr String × Host :=
  if injected h.faults.class_create then (.err (-(h.faults.class_create : Int)), h)
  else if name ∈ h.classes then (.err (-EEXIST), h)
  else (.ok name, { h with classes := name :: h.classes })

/-- Kernel `class_destroy`: nothing on a `NULL` or `ERR_PTR` argument. -/
def class_destroy (cls : Ptr String) (h : Host) : Host :=
  match cls with
  | .ok name => { h with classes := h.classes.erase name }
  | _ => h

/-- Kernel `device_create(cls, NULL, devt, NULL, name)`: an `ERR_PTR` on
failure, else the new device, whose node appears in the namespace. -/
def device_create (cls : Ptr String) (devt : Nat) (_name : String) (h : Host) :
    Ptr Nat × Host :=
  if injected h.faults.device_create then (.err (-(h.faults.device_create : Int)), h)
  else match cls with
    | .ok c =>
      if (c, devt) ∈ h.devices then (.err (-EEXIST), h)
      else (.ok devt, { h with devices := (c, devt) :: h.devices })
    | _ => (.err (-EEXIST), h)

/-- Kernel `device_destroy(cls, devt)`: removes the device of that class with
that device number, if there is one. -/
def device_destroy (cls : Ptr String) (devt : Nat) (h : Host) : Host :=
  match cls with
  | .ok c => { h with devices := h.devices.erase (c, devt) }
  | _ => h

/-- Kernel `gpio_request(gpio, label)`: claims the line, `-EBUSY` when it is
claimed already.  Requesting a line configures neither its direction nor its
level. -/
def gpio_request (gpio : Nat) (_label : String) (h : Host) : Int × Host :=
  if injected h.faults.gpio_request then (-(h.faults.gpio_request : Int), h)
  else if gpio ∈ h.gpios then (-EBUSY, h)
  else (0, { h with gpios := gpio :: h.gpios })

/-- Kernel `gpio_free`. -/
def gpio_free (gpio : Nat) (h : Host) : Host :=
  { h with gpios := h.gpios.erase gpio }

/-- Kernel `gpio_set_value(gpio, value)`: drives the line high when `value` is
non-zero, low otherwise. -/
def gpio_set_value (gpio : Nat) (value : Int) (h : Host) : Host :=
  if value ≠ 0 then
    { h with high := if gpio ∈ h.high then h.high else gpio :: h.high }
  else
    { h with high := h.high.filter (fun g => g ≠ gpio) }

/-- Kernel `gpio_direction_output(gpio, value)`: makes the line an output and
drives it to `value`; a negative errno when the hardware rejects it. -/
def gpio_direction_output (gpio : Nat) (value : Int) (h : Host) : Int × Host :=
  if injected h.faults.gpio_direction_output then
    (-(h.faults.gpio_direction_output : Int), h)
  else
    let h1 := gpio_set_value gpio value h
    (0, { h1 with outputs := if gpio ∈ h1.outputs then h1.outputs else gpio :: h1.outputs })

/-- Kernel `copy_from_user(dst, src, n)`.  `src` is the run of readable bytes at
the caller's pointer (what follows is unmapped).  Returns the destination
buffer after the copy and the number of bytes that could not be copied; the
uncopied tail of the destination range is zeroed. -/
def copy_from_user (dst src : List Nat) (n : Nat) : List Nat × Nat :=
  if n ≤ src.length then
    (src.take n ++ dst.drop n, 0)
  else
    (src ++ List.replicate (n - src.length) 0 ++ dst.drop n, n - src.length)

/-! ## The driver state -/

/-- The module globals, the host they act on and the trace of kernel calls. -/
structure Sys where
  /-- Source: `static char control_signal[BUF_LEN];` -/
  control_signal : List Nat
  /-- Source: `static unsigned long device_buffer_size = 0;` -/
  device_buffer_size : Nat
  /-- Source: `static struct class *cls;` -/
  cls : Ptr String
  /-- Source: `static struct device *dev;` -/
  dev : Ptr Nat
  host : Host
  trace : List Event
  deriving DecidableEq, Repr

/-- The module as loaded: zero-initialised globals, empty trace. -/
def Sys.boot (h : Host) : Sys :=
  { control_signal := List.replicate BUF_LEN 0, device_buffer_size := 0,
    cls := .null, dev := .null, host := h, trace := [] }

/-- Append one kernel call to the trace. -/
def Sys.emit (s : Sys) (e : Event) : Sys := { s with trace := s.trace ++ [e] }

/-- The level of the driver's line, `leds[0].gpio`: the OutputLine's
`currentState`. -/
def Sys.currentState (s : Sys) : Bool := s.host.lineValue leds0.gpio

/-! ## `device_write` -/

/-- Result of `device_write`: the returned `ssize_t`, the caller's `*offset`
after the call, and the state. -/
structure WriteResult where
  ret : Int
  offset : Int
  sys : Sys
  deriving DecidableEq, Repr

/-- Reduction of an integer to the 64-bit two's complement range of `loff_t`:
what storing a 64-bit sum into a `loff_t` yields. -/
def to_loff_t (x : Int) : Int := (x + 2 ^ 63) % 2 ^ 64 - 2 ^ 63

/-- Source: `device_write(file, buffer, length, offset)`.  `buffer` is the run
of readable bytes at the caller's pointer, `length` the `size_t` requested
length, `offset` the value of `*offset` on entry.  `min(BUF_LEN, length)`
compares the constant 2 with an unsigned `length`, so it is the minimum of the
two as natural numbers; `*offset += device_buffer_size` is a 64-bit addition
stored back into a `loff_t`. -/
def device_write (s : Sys) (buffer : List Nat) (length : Nat) (offset : Int) : WriteResult :=
  let s := s.emit (.printk .info "device_write(%p,%p,%ld)")
  let s := { s with device_buffer_size := min BUF_LEN length }
  let r := copy_from_user s.control_signal buffer s.device_buffer_size
  let s := { s with control_signal := r.1 }.emit (.copy_from_user s.device_buffer_size r.2)
  if r.2 ≠ 0 then
    ⟨-EFAULT, offset, s⟩
  else
    let c := s.control_signal.headD 0
    let s :=
      if c = CHAR_0 then
        ({ s with host := gpio_set_value leds0.gpio 0 s.host }.emit
          (.gpio_set_value leds0.gpio 0)).emit (.printk .info "LED OFF")
      else if c = CHAR_1 then
        ({ s with host := gpio_set_value leds0.gpio 1 s.host }.emit
          (.gpio_set_value leds0.gpio 1)).emit (.printk .info "LED ON")
      else
        s.emit (.printk .warn "Invalid value!\n")
    ⟨(s.device_buffer_size : Int), to_loff_t (offset + s.device_buffer_size), s⟩

/-! ## `led_init` and `led_exit` -/

/-- Source: label `fail1` of `led_init`. -/
def fail1 (ret : Int) (s : Sys) : Int × Sys :=
  (ret, { s with host := unregister_chrdev MAJOR_NUM DEVICE_NAME s.host }.emit
    (.unregister_chrdev MAJOR_NUM DEVICE_NAME))

/-- Source: label `fail2` of `led_init`, falling through to `fail1`. -/
def fail2 (ret : Int) (s : Sys) : Int × Sys :=
  fail1 ret ({ s with host := class_destroy s.cls s.host }.emit (.class_destroy s.cls))

/-- Source: label `fail3` of `led_init`, falling through to `fail2`. -/
def fail3 (ret : Int) (s : Sys) : Int × Sys :=
  fail2 ret ({ s with host := device_destroy s.cls (MKDEV MAJOR_NUM 0) s.host }.emit
    (.device_destroy s.cls (MKDEV MAJOR_NUM 0)))

/-- Source: label `fail4` of `led_init`, falling through to `fail3`. -/
def fail4 (ret : Int) (s : Sys) : Int × Sys :=
  fail3 ret ({ s with host := gpio_free leds0.gpio s.host }.emit (.gpio_free leds0.gpio))

/-- Source: `led_init`.  Returns the `int` result and the state. -/
def led_init (s : Sys) : Int × Sys :=
  let r := register_chrdev MAJOR_NUM DEVICE_NAME s.host
  let ret := r.1
  let s := { s with host := r.2 }.emit (.register_chrdev MAJOR_NUM DEVICE_NAME ret)
  if ret < 0 then
    (ret, s.emit (.printk .alert "%s failed with %d\n"))
  else
    let r := class_create DEVICE_NAME s.host
    let s := { s with cls := r.1, host := r.2 }.emit (.class_create DEVICE_NAME r.1)
    if IS_ERR s.cls then
      let s := s.emit (.printk .err "Failed to create class for device\n")
      fail1 (PTR_ERR s.cls) s
    else
      let r := device_create s.cls (MKDEV MAJOR_NUM 0) DEVICE_NAME s.host
      let s := { s with dev := r.1, host := r.2 }.emit
        (.device_create s.cls (MKDEV MAJOR_NUM 0) DEVICE_NAME r.1)
      if IS_ERR s.dev then
        let s := s.emit (.printk .err "Failed to create the device file\n")
        fail2 (PTR_ERR s.dev) s
      else
        let s := s.emit (.printk .info "Device created on /dev/%s\n")
        let r := gpio_request leds0.gpio leds0.label s.host
        let ret := r.1
        let s := { s with host := r.2 }.emit (.gpio_request leds0.gpio leds0.label ret)
        if ret ≠ 0 then
          let s := s.emit (.printk .err "Unable to request GPIOs for LEDs: %d\n")
          fail3 ret s
        else
          let r := gpio_direction_output leds0.gpio leds0.flags s.host
          let ret := r.1
          let s := { s with host := r.2 }.emit
            (.gpio_direction_output leds0.gpio leds0.flags ret)
          if ret ≠ 0 then
            let s := s.emit (.printk .err "Failed to set GPIO %d direction\n")
            fail4 ret s
          else
            (0, s)

/-- Source: `led_exit`. -/
def led_exit (s : Sys) : Sys :=
  let s := { s with host := gpio_set_value leds0.gpio 0 s.host }.emit
    (.gpio_set_value leds0.gpio 0)
  let s := { s with host := gpio_free leds0.gpio s.host }.emit (.gpio_free leds0.gpio)
  let s := { s with host := device_destroy s.cls (MKDEV MAJOR_NUM 0) s.host }.emit
    (.device_destroy s.cls (MKDEV MAJOR_NUM 0))
  let s := { s with host := class_destroy s.cls s.host }.emit (.class_destroy s.cls)
  { s with host := unregister_chrdev MAJOR_NUM DEVICE_NAME s.host }.emit
    (.unregister_chrdev MAJOR_NUM DEVICE_NAME)

/-- A host with nothing registered or claimed and every service working. -/
def Host.idle : Host :=
  { chrdevs := [], classes := [], devices := [], gpios := [], outputs := [], high := [],
    faults := ⟨0, 0, 0, 0, 0⟩ }

/-! ## Sequences of writes -/

/-- One `write` request: the readable bytes at the caller's pointer, the
requested length and the caller's stream offset. -/
structure WriteReq where
  buffer : List Nat
  length : Nat
  offset : Int
  deriving DecidableEq, Repr

/-- The bytes `device_write` copies, `min(BUF_LEN, length)` of them, are all
readable: `copy_from_user` succeeds. -/
def readable (buffer : List Nat) (length : Nat) : Prop := min BUF_LEN length ≤ buffer.length

instance (buffer : List Nat) (length : Nat) : Decidable (readable buffer length) := by
  unfold readable; infer_instance

/-- The state after a sequence of `write` calls, oldest first. -/
def run_writes (s : Sys) : List WriteReq → Sys
  | [] => s
  | w :: ws => run_writes (device_write s w.buffer w.length w.offset).sys ws

/-- The kernel calls made between state `before` and the later state `after`. -/
def newEvents (before after : Sys) : List Event := after.trace.drop before.trace.length

/-- Calls of the hardware line API. -/
def Event.isGpio : Event → Bool
  | .gpio_request _ _ _ => true
  | .gpio_direction_output _ _ _ => true
  | .gpio_set_value _ _ => true
  | .gpio_free _ => true
  | _ => false

/-- The warning path of `device_write`: `pr_warn`. -/
def Event.isWarning : Event → Bool
  | .printk .warn _ => true
  | _ => false

/-- What a caller and the hardware can observe of one `device_write` call made
in state `before`: the returned value, the stream offset, the host and the
kernel calls made. -/
def WriteResult.observable (before : Sys) (r : WriteResult) : Int × Int × Host × List Event :=
  (r.ret, r.offset, r.sys.host, newEvents before r.sys)

/-- The command bytes `'0'` and `'1'`. -/
def recognised (b : Nat) : Bool := decide (b = CHAR_0) || decide (b = CHAR_1)

/-- Reference for last-command-wins, in the specification's words: the most
recent first byte that is `'0'` or `'1'`, if any. -/
def lastCommand (firstBytes : List Nat) : Option Nat :=
  firstBytes.reverse.find? recognised

/-- Reference for last-command-wins: on if the most recent recognised command
was `'1'`, off if it was `'0'`, and off (the state after start) if there was
none. -/
def expectedState (firstBytes : List Nat) : Bool :=
  match lastCommand firstBytes with
  | some b => decide (b = CHAR_1)
  | none => false

/-! ## Startup steps -/

/-- The five startup steps, named by what they acquire. -/
inductive Step where
  | identity | group | node | claim | configure
  deriving DecidableEq, Repr

/-- The startup steps in the order of the specification, (a) to (e). -/
def Step.all : List Step := [.identity, .group, .node, .claim, .configure]

/-- The steps that come before step `k`. -/
def Step.before (k : Step) : List Step := Step.all.takeWhile (fun j => decide (j ≠ k))

/-- Reference, in the specification's words: the host call of one startup step
with the fixed configuration constants (numeric identity 100, name
"gpio_led", line 4, driven low); returns the error code (0 on success) and
the host afterwards. -/
def Step.attempt : Step → Host → Int × Host
  | .identity, h => register_chrdev 100 "gpio_led" h
  | .group, h => let r := class_create "gpio_led" h; (PTR_ERR r.1, r.2)
  | .node, h =>
    let r := device_create (.ok "gpio_led") (MKDEV 100 0) "gpio_led" h; (PTR_ERR r.1, r.2)
  | .claim, h => gpio_request 4 "LED 1" h
  | .configure, h => gpio_direction_output 4 0 h

/-- Reference, in the specification's words: attempt the given steps in order
and stop at the first one that fails; returns that step with its error code,
or `none` when every step succeeded. -/
def firstFailure : List Step → Host → Option (Step × Int)
  | [], _ => none
  | k :: ks, h =>
    let r := Step.attempt k h
    if r.1 ≠ 0 then some (k, r.1) else firstFailure ks r.2

/-- What a kernel call means for the lifecycle: the attempt of a startup step
or the undoing of one. -/
inductive Action where
  | attempt (k : Step)
  | undo (k : Step)
  deriving DecidableEq, Repr

/-- The lifecycle meaning of a kernel call, if it has one. -/
def Event.action? : Event → Option Action
  | .register_chrdev _ _ _ => some (.attempt .identity)
  | .class_create _ _ => some (.attempt .group)
  | .device_create _ _ _ _ => some (.attempt .node)
  | .gpio_request _ _ _ => some (.attempt .claim)
  | .gpio_direction_output _ _ _ => some (.attempt .configure)
  | .gpio_free _ => some (.undo .claim)
  | .device_destroy _ _ => some (.undo .node)
  | .class_destroy _ => some (.undo .group)
  | .unregister_chrdev _ _ => some (.undo .identity)
  | _ => none

/-- The lifecycle actions of a trace, in order. -/
def actions (tr : List Event) : List Action := tr.filterMap Event.action?

/-! ## Handles held along a trace -/

/-- Which of the driver's handles are valid: the identity registration, the
group handle, the node handle and the line claim. -/
structure Held where
  identity : Bool
  group : Bool
  node : Bool
  line : Bool
  deriving DecidableEq, Repr

/-- A handle becomes valid when the call creating it succeeds and stops being
valid when it is passed to the call destroying it. -/
def Held.update (v : Held) : Event → Held
  | .register_chrdev _ _ ret => if ret < 0 then v else { v with identity := true }
  | .class_create _ (.ok _) => { v with group := true }
  | .device_create _ _ _ (.ok _) => { v with node := true }
  | .gpio_request _ _ ret => if ret ≠ 0 then v else { v with line := true }
  | .gpio_free _ => { v with line := false }
  | .device_destroy _ _ => { v with node := false }
  | .class_destroy _ => { v with group := false }
  | .unregister_chrdev _ _ => { v with identity := false }
  | _ => v

/-- The handles valid after a trace of kernel calls, starting with none. -/
def held (tr : List Event) : Held := tr.foldl Held.update ⟨false, false, false, false⟩

/-- Dependency order of the handles: node only with group, group only with
identity, line claim only with node. -/
def Held.ordered (v : Held) : Prop :=
  (v.node = true → v.group = true) ∧ (v.group = true → v.identity = true) ∧
  (v.line = true → v.node = true)

/-! ## The lifecycle as a step relation -/

/-- Control points of the lifecycle: the kernel call `led_init` or `led_exit`
is about to make, the labels of `led_init`, and the points where the module
waits for the host. -/
inductive PC where
  | load
  | at_class_create
  | at_device_create
  | at_gpio_request
  | at_gpio_direction_output
  | fail4 (ret : Int)
  | fail3 (ret : Int)
  | fail2 (ret : Int)
  | fail1 (ret : Int)
  | returned (ret : Int)
  | exit
  | exit_gpio_free
  | exit_device_destroy
  | exit_class_destroy
  | exit_unregister_chrdev
  | unloaded
  deriving DecidableEq, Repr

/-- One kernel call of `led_init` or `led_exit` (with the logging that goes
with it) from a control point; `none` where the driver code is not running. -/
def next : PC → Sys → Option (PC × Sys)
  | .load, s =>
    let r := register_chrdev MAJOR_NUM DEVICE_NAME s.host
    let s := { s with host := r.2 }.emit (.register_chrdev MAJOR_NUM DEVICE_NAME r.1)
    if r.1 < 0 then some (.returned r.1, s.emit (.printk .alert "%s failed with %d\n"))
    else some (.at_class_create, s)
  | .at_class_create, s =>
    let r := class_create DEVICE_NAME s.host
    let s := { s with cls := r.1, host := r.2 }.emit (.class_create DEVICE_NAME r.1)
    if IS_ERR s.cls then
      some (.fail1 (PTR_ERR s.cls), s.emit (.printk .err "Failed to create class for device\n"))
    else some (.at_device_create, s)
  | .at_device_create, s =>
    let r := device_create s.cls (MKDEV MAJOR_NUM 0) DEVICE_NAME s.host
    let s := { s with dev := r.1, host := r.2 }.emit
      (.device_create s.cls (MKDEV MAJOR_NUM 0) DEVICE_NAME r.1)
    if IS_ERR s.dev then
      some (.fail2 (PTR_ERR s.dev), s.emit (.printk .err "Failed to create the device file\n"))
    else some (.at_gpio_request, s.emit (.printk .info "Device created on /dev/%s\n"))
  | .at_gpio_request, s =>
    let r := gpio_request leds0.gpio leds0.label s.host
    let s := { s with host := r.2 }.emit (.gpio_request leds0.gpio leds0.label r.1)
    if r.1 ≠ 0 then
      some (.fail3 r.1, s.emit (.printk .err "Unable to request GPIOs for LEDs: %d\n"))
    else some (.at_gpio_direction_output, s)
  | .at_gpio_direction_output, s =>
    let r := gpio_direction_output leds0.gpio leds0.flags s.host
    let s := { s with host := r.2 }.emit (.gpio_direction_output leds0.gpio leds0.flags r.1)
    if r.1 ≠ 0 then
      some (.fail4 r.1, s.emit (.printk .err "Failed to set GPIO %d direction\n"))
    else some (.returned 0, s)
  | .fail4 ret, s =>
    some (.fail3 ret, { s with host := gpio_free leds0.gpio s.host }.emit (.gpio_free leds0.gpio))
  | .fail3 ret, s =>
    some (.fail2 ret, { s with host := device_destroy s.cls (MKDEV MAJOR_NUM 0) s.host }.emit
      (.device_destroy s.cls (MKDEV MAJOR_NUM 0)))
  | .fail2 ret, s =>
    some (.fail1 ret, { s with host := class_destroy s.cls s.host }.emit (.class_destroy s.cls))
  | .fail1 ret, s =>
    some (.returned ret, { s with host := unregister_chrdev MAJOR_NUM DEVICE_NAME s.host }.emit
      (.unregister_chrdev MAJOR_NUM DEVICE_NAME))
  | .returned _, _ => none
  | .exit, s =>
    some (.exit_gpio_free, { s with host := gpio_set_value leds0.gpio 0 s.host }.emit
      (.gpio_set_value leds0.gpio 0))
  | .exit_gpio_free, s =>
    some (.exit_device_destroy,
      { s with host := gpio_free leds0.gpio s.host }.emit (.gpio_free leds0.gpio))
  | .exit_device_destroy, s =>
    some (.exit_class_destroy,
      { s with host := device_destroy s.cls (MKDEV MAJOR_NUM 0) s.host }.emit
        (.device_destroy s.cls (MKDEV MAJOR_NUM 0)))
  | .exit_class_destroy, s =>
    some (.exit_unregister_chrdev,
      { s with host := class_destroy s.cls s.host }.emit (.class_destroy s.cls))
  | .exit_unregister_chrdev, s =>
    some (.unloaded, { s with host := unregister_chrdev MAJOR_NUM DEVICE_NAME s.host }.emit
      (.unregister_chrdev MAJOR_NUM DEVICE_NAME))
  | .unloaded, _ => none

/-- Iterate `next` at most `fuel` times, stopping where the driver code stops. -/
def run : Nat → PC × Sys → PC × Sys
  | 0, c => c
  | fuel + 1, c =>
    match next c.1 c.2 with
    | some c1 => run fuel c1
    | none => c

/-- The lifecycle step relation: a kernel call of the driver code, a write to
the loaded module, the start of an unload of the loaded module, or a fresh
load (globals reset) after a failed load or an unload. -/
inductive Trans : PC × Sys → PC × Sys → Prop where
  | code (pc : PC) (s : Sys) (c : PC × Sys) (h : next pc s = some c) : Trans (pc, s) c
  | write (s : Sys) (w : WriteReq) :
    Trans (.returned 0, s) (.returned 0, (device_write s w.buffer w.length w.offset).sys)
  | unload (s : Sys) : Trans (.returned 0, s) (.exit, s)
  | reload_failed (s : Sys) (ret : Int) (h : ret ≠ 0) :
    Trans (.returned ret, s) (.load, { Sys.boot s.host with trace := s.trace })
  | reload (s : Sys) : Trans (.unloaded, s) (.load, { Sys.boot s.host with trace := s.trace })

/-- The states the lifecycle reaches from the unregistered state on host `h`. -/
inductive Reachable (h : Host) : PC × Sys → Prop where
  | start : Reachable h (.load, Sys.boot h)
  | step (c c1 : PC × Sys) (hc : Reachable h c) (ht : Trans c c1) : Reachable h c1

/-! ## Host conditions deciding each startup step -/

/-- Step (a) fails on host `h`: registration reports an error or the major is
taken. -/
def Host.fails_identity (h : Host) : Prop :=
  injected h.faults.register_chrdev = true ∨ MAJOR_NUM ∈ h.chrdevs

/-- Step (b) fails on host `h`. -/
def Host.fails_group (h : Host) : Prop :=
  injected h.faults.class_create = true ∨ DEVICE_NAME ∈ h.classes

/-- Step (c) fails on host `h`. -/
def Host.fails_node (h : Host) : Prop :=
  injected h.faults.device_create = true ∨ (DEVICE_NAME, MKDEV MAJOR_NUM 0) ∈ h.devices

/-- Step (d) fails on host `h`: the claim reports an error or the line is
claimed already. -/
def Host.fails_claim (h : Host) : Prop :=
  injected h.faults.gpio_request = true ∨ leds0.gpio ∈ h.gpios

/-- Step (e) fails on host `h`: the hardware rejects the direction. -/
def Host.fails_configure (h : Host) : Prop :=
  injected h.faults.gpio_direction_output = true

/-- The host after the first `n` startup steps have succeeded on `h`. -/
def Host.after (h : Host) (n : Nat) : Host :=
  { h with
    chrdevs := if 1 ≤ n then MAJOR_NUM :: h.chrdevs else h.chrdevs
    classes := if 2 ≤ n then DEVICE_NAME :: h.classes else h.classes
    devices := if 3 ≤ n then (DEVICE_NAME, MKDEV MAJOR_NUM 0) :: h.devices else h.devices
    gpios := if 4 ≤ n then leds0.gpio :: h.gpios else h.gpios
    outputs := if 5 ≤ n ∧ leds0.gpio ∉ h.outputs then leds0.gpio :: h.outputs else h.outputs
    high := if 5 ≤ n then h.high.filter (fun g => g ≠ leds0.gpio) else h.high }

/-- The error code of a failing kernel service: the errno the host reports
for it, else the errno for a resource that is taken already. -/
def errno_of (fault : Nat) (taken : Int) : Int :=
  if injected fault then -(fault : Int) else -taken

/-- The startup step a lifecycle action attempts, if it is an attempt. -/
def Action.attempted? : Action → Option Step
  | .attempt k => some k
  | .undo _ => none

/-- The startup steps attempted along a trace, in order. -/
def attempts (tr : List Event) : List Step := (actions tr).filterMap Action.attempted?

/-- Kernel calls other than logging. -/
def Event.isCall : Event → Bool
  | .printk _ _ => false
  | _ => true

/-- A host like `Host.idle` where the service of one startup step reports
errno `e`: that step is the first to fail. -/
def Host.failing (k : Step) (e : Nat) : Host :=
  { Host.idle with faults :=
      match k with
      | .identity => ⟨e, 0, 0, 0, 0⟩
      | .group => ⟨0, e, 0, 0, 0⟩
      | .node => ⟨0, 0, e, 0, 0⟩
      | .claim => ⟨0, 0, 0, e, 0⟩
      | .configure => ⟨0, 0, 0, 0, e⟩ }

/-- An idle host on which line 4 happens to be high. -/
def Host.lineHigh : Host := { Host.idle with high := [4] }

/-- State `s` is the module loaded on top of host `h`: the handles are the
ones `led_init` stored, the resource tables are those of `h` with the
driver's identity, group, node and line claim added, and the host conditions
are those of `h`. -/
def Sys.loaded_on (s : Sys) (h : Host) : Prop :=
  s.cls = .ok DEVICE_NAME ∧ s.dev = .ok (MKDEV MAJOR_NUM 0) ∧
  s.host.chrdevs = MAJOR_NUM :: h.chrdevs ∧
  s.host.classes = DEVICE_NAME :: h.classes ∧
  s.host.devices = (DEVICE_NAME, MKDEV MAJOR_NUM 0) :: h.devices ∧
  s.host.gpios = leds0.gpio :: h.gpios ∧
  s.host.faults = h.faults

/-- The first byte of the payload of a write request. -/
def WriteReq.firstByte (w : WriteReq) : Nat := w.buffer.headD 0

/-- A write request of at least one byte whose payload is readable. -/
def WriteReq.valid (w : WriteReq) : Prop := 1 ≤ w.length ∧ readable w.buffer w.length

instance (w : WriteReq) : Decidable w.valid := by
  unfold WriteReq.valid; infer_instance

/-- The handles valid at each control point of the lifecycle. -/
def expectedHeld : PC → Held
  | .load => ⟨false, false, false, false⟩
  | .at_class_create => ⟨true, false, false, false⟩
  | .at_device_create => ⟨true, true, false, false⟩
  | .at_gpio_request => ⟨true, true, true, false⟩
  | .at_gpio_direction_output => ⟨true, true, true, true⟩
  | .fail4 _ => ⟨true, true, true, true⟩
  | .fail3 _ => ⟨true, true, true, false⟩
  | .fail2 _ => ⟨true, true, false, false⟩
  | .fail1 _ => ⟨true, false, false, false⟩
  | .returned ret => if ret = 0 then ⟨true, true, true, true⟩ else ⟨false, false, false, false⟩
  | .exit => ⟨true, true, true, true⟩
  | .exit_gpio_free => ⟨true, true, true, true⟩
  | .exit_device_destroy => ⟨true, true, true, false⟩
  | .exit_class_destroy => ⟨true, true, false, false⟩
  | .exit_unregister_chrdev => ⟨true, false, false, false⟩
  | .unloaded => ⟨false, false, false, false⟩

/-- At the labels of `led_init` the pending return value is an error. -/
def PC.carriesError : PC → Prop
  | .fail4 ret => ret ≠ 0
  | .fail3 ret => ret ≠ 0
  | .fail2 ret => ret ≠ 0
  | .fail1 ret => ret ≠ 0
  | _ => True

/-- The inductive invariant of the lifecycle: the handles valid along the
trace are those of the control point. -/
def Good (c : PC × Sys) : Prop :=
  held c.2.trace = expectedHeld c.1 ∧ c.1.carriesError

/-- What is observed of each write of a sequence, oldest first. -/
def observe_writes (s : Sys) : List WriteReq → List (Int × Int × Host × List Event)
  | [] => []
  | w :: ws =>
    (device_write s w.buffer w.length w.offset).observable s ::
      observe_writes (device_write s w.buffer w.length w.offset).sys ws

/-! ## Facts about `device_write` -/

theorem copy_from_user_readable (dst buffer : List Nat) (length : Nat)
    (hread : readable buffer length) :
    copy_from_user dst buffer (min BUF_LEN length)
      = (buffer.take (min BUF_LEN length) ++ dst.drop (min BUF_LEN length), 0) := by
  unfold readable at hread
  simp [copy_from_user, hread]

theorem copy_from_user_fault (dst buffer : List Nat) (length : Nat)
    (hread : ¬ readable buffer length) :
    (copy_from_user dst buffer (min BUF_LEN length)).2 ≠ 0 := by
  unfold readable at hread
  simp only [copy_from_user, if_neg hread]
  omega

theorem min_buf_pos (length : Nat) (hlen : 1 ≤ length) :
    ∃ m, min BUF_LEN length = m + 1 := by
  refine ⟨min BUF_LEN length - 1, ?_⟩
  have : 1 ≤ min BUF_LEN length := by
    simp only [BUF_LEN]; omega
  omega

/-- The state `device_write` reaches on a readable payload with at least one
byte, in terms of the first byte `b`. -/
theorem device_write_readable (s : Sys) (b : Nat) (rest : List Nat) (length : Nat)
    (offset : Int) (hlen : 1 ≤ length) (hread : readable (b :: rest) length) :
    device_write s (b :: rest) length offset =
      let n := min BUF_LEN length
      let s1 : Sys := { s with
        device_buffer_size := n
        control_signal := (b :: rest).take n ++ s.control_signal.drop n
        trace := s.trace ++ [.printk .info "device_write(%p,%p,%ld)", .copy_from_user n 0] }
      let s2 : Sys :=
        if b = CHAR_0 then
          { s1 with host := gpio_set_value leds0.gpio 0 s.host
                    trace := s1.trace ++ [.gpio_set_value leds0.gpio 0, .printk .info "LED OFF"] }
        else if b = CHAR_1 then
          { s1 with host := gpio_set_value leds0.gpio 1 s.host
                    trace := s1.trace ++ [.gpio_set_value leds0.gpio 1, .printk .info "LED ON"] }
        else { s1 with trace := s1.trace ++ [.printk .warn "Invalid value!\n"] }
      ⟨(n : Int), to_loff_t (offset + n), s2⟩ := by
  obtain ⟨m, hm⟩ := min_buf_pos length hlen
  have hc := copy_from_user_readable s.control_signal (b :: rest) length hread
  simp only [device_write, Sys.emit, hc]
  simp only [hm, List.take_succ_cons, List.cons_append, List.headD_cons]
  by_cases h0 : b = CHAR_0
  · simp [h0]
  · by_cases h1 : b = CHAR_1
    · simp [h1, CHAR_0, CHAR_1]
    · simp [h0, h1]

/-- The state `device_write` reaches when the payload cannot be read. -/
theorem device_write_fault (s : Sys) (buffer : List Nat) (length : Nat) (offset : Int)
    (hread : ¬ readable buffer length) :
    device_write s buffer length offset =
      let n := min BUF_LEN length
      let r := copy_from_user s.control_signal buffer n
      ⟨-EFAULT, offset, { s with
        device_buffer_size := n
        control_signal := r.1
        trace := s.trace ++ [.printk .info "device_write(%p,%p,%ld)", .copy_from_user n r.2] }⟩ := by
  have hc := copy_from_user_fault s.control_signal buffer length hread
  simp [device_write, Sys.emit, hc]

/-- Returned value and offset of `device_write` on any readable payload. -/
theorem device_write_ret_offset (s : Sys) (buffer : List Nat) (length : Nat) (offset : Int)
    (hread : readable buffer length) :
    (device_write s buffer length offset).ret = ((min BUF_LEN length : Nat) : Int) ∧
    (device_write s buffer length offset).offset
      = to_loff_t (offset + ((min BUF_LEN length : Nat) : Int)) := by
  have hc := copy_from_user_readable s.control_signal buffer length hread
  simp only [device_write, Sys.emit, hc]
  simp only [ne_eq, not_true_eq_false, if_false]
  constructor <;> split_ifs <;> simp

theorem newEvents_append (s s2 : Sys) (l : List Event) (h : s2.trace = s.trace ++ l) :
    newEvents s s2 = l := by
  simp [newEvents, h]

theorem lineValue_set_low (h : Host) (g : Nat) :
    (gpio_set_value g 0 h).lineValue g = false := by
  simp [gpio_set_value, Host.lineValue]

theorem lineValue_set_high (h : Host) (g : Nat) :
    (gpio_set_value g 1 h).lineValue g = true := by
  by_cases hg : g ∈ h.high <;> simp [gpio_set_value, Host.lineValue, hg]

theorem copy_from_user_left (dst dst2 src : List Nat) (n : Nat) :
    (copy_from_user dst src n).2 = (copy_from_user dst2 src n).2 := by
  unfold copy_from_user
  split_ifs <;> rfl

/-- A write of at least one byte is observed the same from any two states
with the same host: what the staging buffer held before does not matter. -/
theorem device_write_observable_congr (s t : Sys) (w : WriteReq) (hlen : 1 ≤ w.length)
    (hhost : s.host = t.host) :
    (device_write s w.buffer w.length w.offset).observable s
      = (device_write t w.buffer w.length w.offset).observable t := by
  by_cases hread : readable w.buffer w.length
  · obtain ⟨m, hm⟩ := min_buf_pos w.length hlen
    cases hb : w.buffer with
    | nil =>
      rw [hb] at hread
      unfold readable at hread
      simp only [List.length_nil] at hread
      omega
    | cons b rest =>
      rw [hb] at hread
      rw [device_write_readable s b rest w.length w.offset hlen hread,
        device_write_readable t b rest w.length w.offset hlen hread]
      simp only [WriteResult.observable, hhost]
      by_cases h0 : b = CHAR_0
      · simp [h0, newEvents]
      · by_cases h1 : b = CHAR_1
        · simp [h1, CHAR_0, CHAR_1, newEvents]
        · simp [h0, h1, newEvents]
  · rw [device_write_fault s w.buffer w.length w.offset hread,
      device_write_fault t w.buffer w.length w.offset hread]
    simp only [WriteResult.observable, hhost, newEvents,
      copy_from_user_left s.control_signal t.control_signal]
    simp

/-- A sequence of writes of at least one byte each is observed the same from
any two states with the same host. -/
theorem observe_writes_congr (ws : List WriteReq) (s t : Sys) (hhost : s.host = t.host)
    (hlen : ∀ w ∈ ws, 1 ≤ w.length) :
    observe_writes s ws = observe_writes t ws := by
  induction ws generalizing s t with
  | nil => rfl
  | cons w ws ih =>
    have hw := device_write_observable_congr s t w (hlen w (List.mem_cons_self w ws)) hhost
    have hh : (device_write s w.buffer w.length w.offset).sys.host
        = (device_write t w.buffer w.length w.offset).sys.host :=
      congrArg (fun o => o.2.2.1) hw
    simp only [observe_writes]
    rw [hw, ih _ _ hh (fun x hx => hlen x (List.mem_cons_of_mem w hx))]

/-! ## Claims about `device_write` -/

/-- C2: a write of at least one byte with a readable payload whose first byte
is `'0'` leaves the line off, with `gpio_set_value(4, 0)` as its only hardware
call and no warning logged; one whose first byte is `'1'` leaves the line on,
with `gpio_set_value(4, 1)` as its only hardware call.  This holds for every
prior state and every second payload byte. -/
theorem device_write_command (s : Sys) (b : Nat) (rest : List Nat) (length : Nat)
    (offset : Int) (hlen : 1 ≤ length) (hread : readable (b :: rest) length) :
    (b = CHAR_0 →
      (device_write s (b :: rest) length offset).sys.currentState = false ∧
      (newEvents s (device_write s (b :: rest) length offset).sys).filter Event.isGpio
        = [.gpio_set_value 4 0] ∧
      (newEvents s (device_write s (b :: rest) length offset).sys).any Event.isWarning
        = false) ∧
    (b = CHAR_1 →
      (device_write s (b :: rest) length offset).sys.currentState = true ∧
      (newEvents s (device_write s (b :: rest) length offset).sys).filter Event.isGpio
        = [.gpio_set_value 4 1] ∧
      (newEvents s (device_write s (b :: rest) length offset).sys).any Event.isWarning
        = false) := by
  rw [device_write_readable s b rest length offset hlen hread]
  constructor
  · intro h0
    subst h0
    refine ⟨?_, ?_, ?_⟩
    · simpa [Sys.currentState] using lineValue_set_low s.host leds0.gpio
    · rw [newEvents_append _ _ [.printk .info "device_write(%p,%p,%ld)",
        .copy_from_user (min BUF_LEN length) 0, .gpio_set_value leds0.gpio 0,
        .printk .info "LED OFF"] (by simp)]
      simp [Event.isGpio, leds0, leds]
    · rw [newEvents_append _ _ [.printk .info "device_write(%p,%p,%ld)",
        .copy_from_user (min BUF_LEN length) 0, .gpio_set_value leds0.gpio 0,
        .printk .info "LED OFF"] (by simp)]
      simp [Event.isWarning]
  · intro h1
    subst h1
    refine ⟨?_, ?_, ?_⟩
    · simpa [Sys.currentState, CHAR_0, CHAR_1] using lineValue_set_high s.host leds0.gpio
    · rw [newEvents_append _ _ [.printk .info "device_write(%p,%p,%ld)",
        .copy_from_user (min BUF_LEN length) 0, .gpio_set_value leds0.gpio 1,
        .printk .info "LED ON"] (by simp [CHAR_0, CHAR_1])]
      simp [Event.isGpio, leds0, leds]
    · rw [newEvents_append _ _ [.printk .info "device_write(%p,%p,%ld)",
        .copy_from_user (min BUF_LEN length) 0, .gpio_set_value leds0.gpio 1,
        .printk .info "LED ON"] (by simp [CHAR_0, CHAR_1])]
      simp [Event.isWarning]

/-- C2 at concrete inputs: writing "0x" (length 2) to a line that is on turns
it off, and writing "1" (length 1) to a line that is off turns it on. -/
theorem device_write_command_witness :
    (1 ≤ 2 ∧ readable [CHAR_0, 120] 2 ∧
      (device_write (Sys.boot { Host.idle with high := [4] }) [CHAR_0, 120] 2 0).sys.currentState
        = false) ∧
    (1 ≤ 1 ∧ readable [CHAR_1] 1 ∧
      (device_write (Sys.boot Host.idle) [CHAR_1] 1 0).sys.currentState = true) :=
  ⟨⟨by decide, by decide,
      ((device_write_command (Sys.boot { Host.idle with high := [4] }) CHAR_0 [120] 2 0
        (by decide) (by decide)).1 rfl).1⟩,
   ⟨by decide, by decide,
      ((device_write_command (Sys.boot Host.idle) CHAR_1 [] 1 0
        (by decide) (by decide)).2 rfl).1⟩⟩

/-- C3: a write of at least one byte with a readable payload whose first byte
is neither `'0'` nor `'1'` makes no hardware call and leaves the host, hence
the line state, as it was; it logs the warning and still succeeds, returning
`min(2, length)`. -/
theorem device_write_unrecognised (s : Sys) (b : Nat) (rest : List Nat) (length : Nat)
    (offset : Int) (hlen : 1 ≤ length) (hread : readable (b :: rest) length)
    (h0 : b ≠ CHAR_0) (h1 : b ≠ CHAR_1) :
    (device_write s (b :: rest) length offset).sys.currentState = s.currentState ∧
    (device_write s (b :: rest) length offset).sys.host = s.host ∧
    (newEvents s (device_write s (b :: rest) length offset).sys).filter Event.isGpio = [] ∧
    (newEvents s (device_write s (b :: rest) length offset).sys).any Event.isWarning = true ∧
    (device_write s (b :: rest) length offset).ret = ((min 2 length : Nat) : Int) := by
  rw [device_write_readable s b rest length offset hlen hread]
  simp only [if_neg h0, if_neg h1]
  refine ⟨by trivial, by trivial, ?_, ?_, by trivial⟩
  · rw [newEvents_append _ _ [.printk .info "device_write(%p,%p,%ld)",
      .copy_from_user (min BUF_LEN length) 0, .printk .warn "Invalid value!\n"] (by simp)]
    simp [Event.isGpio]
  · rw [newEvents_append _ _ [.printk .info "device_write(%p,%p,%ld)",
      .copy_from_user (min BUF_LEN length) 0, .printk .warn "Invalid value!\n"] (by simp)]
    simp [Event.isWarning]

/-- C3 at a concrete input: writing "9" (length 1) to a line that is on leaves
it on and returns 1. -/
theorem device_write_unrecognised_witness :
    1 ≤ 1 ∧ readable [57] 1 ∧ (57 : Nat) ≠ CHAR_0 ∧ (57 : Nat) ≠ CHAR_1 ∧
    (device_write (Sys.boot { Host.idle with high := [4] }) [57] 1 0).sys.currentState = true ∧
    (device_write (Sys.boot { Host.idle with high := [4] }) [57] 1 0).ret = 1 :=
  ⟨by decide, by decide, by decide, by decide,
    (device_write_unrecognised (Sys.boot { Host.idle with high := [4] }) 57 [] 1 0
      (by decide) (by decide) (by decide) (by decide)).1,
    (device_write_unrecognised (Sys.boot { Host.idle with high := [4] }) 57 [] 1 0
      (by decide) (by decide) (by decide) (by decide)).2.2.2.2⟩

/-- C6: on every readable payload and for every requested length (any
`size_t` value), `device_write` returns `min(2, length)`, which is 2 from
length 2 on, 1 at length 1, 0 at length 0 and never negative; and for every
stream offset the driver is called with (a `loff_t` that the bytes consumed do
not carry past the largest `loff_t`: the host rejects other calls before they
reach the driver) the offset afterwards is the offset before plus the returned
amount.  In general the stored offset is that sum as a 64-bit two's complement
value. -/
theorem device_write_byte_count (s : Sys) (buffer : List Nat) (length : Nat) (offset : Int)
    (hread : readable buffer length) :
    (device_write s buffer length offset).ret = ((min 2 length : Nat) : Int) ∧
    0 ≤ (device_write s buffer length offset).ret ∧
    (2 ≤ length → (device_write s buffer length offset).ret = 2) ∧
    (length = 1 → (device_write s buffer length offset).ret = 1) ∧
    (length = 0 → (device_write s buffer length offset).ret = 0) ∧
    (-2 ^ 63 ≤ offset → offset + (device_write s buffer length offset).ret < 2 ^ 63 →
      (device_write s buffer length offset).offset
        = offset + (device_write s buffer length offset).ret) ∧
    (device_write s buffer length offset).offset
      = to_loff_t (offset + (device_write s buffer length offset).ret) := by
  obtain ⟨hr, ho⟩ := device_write_ret_offset s buffer length offset hread
  rw [hr, ho]
  simp only [BUF_LEN]
  refine ⟨by trivial, by positivity, ?_, ?_, ?_, ?_, by trivial⟩
  · intro h; simp [h]
  · intro h; simp [h]
  · intro h; simp [h]
  · intro hlo hhi
    have hn : (0 : Int) ≤ ((min 2 length : Nat) : Int) := by positivity
    unfold to_loff_t
    omega

/-- C6 at concrete inputs: a readable write of requested length `2 ^ 64 - 1`
at offset 7 returns 2 and moves the offset to 9; a readable write of length 1
at offset `2 ^ 63 - 2`, the largest the host passes with that length, returns
1 and moves the offset to `2 ^ 63 - 1`. -/
theorem device_write_byte_count_witness :
    (readable [CHAR_1, 10] (2 ^ 64 - 1) ∧
      (device_write (Sys.boot Host.idle) [CHAR_1, 10] (2 ^ 64 - 1) 7).ret = 2 ∧
      (device_write (Sys.boot Host.idle) [CHAR_1, 10] (2 ^ 64 - 1) 7).offset
        = 7 + (device_write (Sys.boot Host.idle) [CHAR_1, 10] (2 ^ 64 - 1) 7).ret) ∧
    (readable [CHAR_0] 1 ∧
      (device_write (Sys.boot Host.idle) [CHAR_0] 1 (2 ^ 63 - 2)).ret = 1 ∧
      (device_write (Sys.boot Host.idle) [CHAR_0] 1 (2 ^ 63 - 2)).offset
        = (2 ^ 63 - 2) + (device_write (Sys.boot Host.idle) [CHAR_0] 1 (2 ^ 63 - 2)).ret) :=
  ⟨⟨by decide,
      (device_write_byte_count (Sys.boot Host.idle) [CHAR_1, 10] (2 ^ 64 - 1) 7
        (by decide)).2.2.1 (by decide),
      (device_write_byte_count (Sys.boot Host.idle) [CHAR_1, 10] (2 ^ 64 - 1) 7
        (by decide)).2.2.2.2.2.1 (by decide) (by decide)⟩,
   ⟨by decide,
      (device_write_byte_count (Sys.boot Host.idle) [CHAR_0] 1 (2 ^ 63 - 2)
        (by decide)).2.2.2.1 rfl,
      (device_write_byte_count (Sys.boot Host.idle) [CHAR_0] 1 (2 ^ 63 - 2)
        (by decide)).2.2.2.2.2.1 (by decide) (by decide)⟩⟩

/-- C5 as stated fails: a write of length 2 whose payload has one readable byte
returns `-EFAULT`, yet the recorded byte count goes from 0 to 2 and the staging
buffer from two zero bytes to `'1'` followed by zero; a zero-length write
afterwards turns the line on, where without the faulted call it leaves it off. -/
theorem device_write_fault_mutates :
    ¬ readable [CHAR_1] 2 ∧
    (device_write (led_init (Sys.boot Host.idle)).2 [CHAR_1] 2 0).ret = -EFAULT ∧
    (led_init (Sys.boot Host.idle)).2.device_buffer_size = 0 ∧
    (device_write (led_init (Sys.boot Host.idle)).2 [CHAR_1] 2 0).sys.device_buffer_size = 2 ∧
    (led_init (Sys.boot Host.idle)).2.control_signal = [0, 0] ∧
    (device_write (led_init (Sys.boot Host.idle)).2 [CHAR_1] 2 0).sys.control_signal
      = [CHAR_1, 0] ∧
    (device_write (device_write (led_init (Sys.boot Host.idle)).2 [CHAR_1] 2 0).sys
      [] 0 0).sys.currentState = true ∧
    (device_write (led_init (Sys.boot Host.idle)).2 [] 0 0).sys.currentState = false := by
  decide

/-- C5, amended: when the payload cannot be read, `device_write` returns
`-EFAULT` and makes no hardware call; the host (so the line state), the
caller's stream offset and the handles are as before the call, while the
recorded byte count has become `min(2, length)`; and every sequence of later
writes of at least one byte each is observed, write by write, exactly as if
the faulted call had not happened. -/
theorem device_write_fault_effect (s : Sys) (buffer : List Nat) (length : Nat) (offset : Int)
    (hread : ¬ readable buffer length) :
    (device_write s buffer length offset).ret = -EFAULT ∧
    (device_write s buffer length offset).offset = offset ∧
    (device_write s buffer length offset).sys.host = s.host ∧
    (device_write s buffer length offset).sys.currentState = s.currentState ∧
    (device_write s buffer length offset).sys.cls = s.cls ∧
    (device_write s buffer length offset).sys.dev = s.dev ∧
    (newEvents s (device_write s buffer length offset).sys).filter Event.isGpio = [] ∧
    (device_write s buffer length offset).sys.device_buffer_size = min 2 length ∧
    ∀ ws : List WriteReq, (∀ w ∈ ws, 1 ≤ w.length) →
      observe_writes (device_write s buffer length offset).sys ws = observe_writes s ws := by
  have hf := device_write_fault s buffer length offset hread
  refine ⟨by rw [hf], by rw [hf], by rw [hf], by rw [hf]; rfl, by rw [hf], by rw [hf], ?_,
    by rw [hf]; rfl, ?_⟩
  · rw [newEvents_append _ _ [.printk .info "device_write(%p,%p,%ld)",
      .copy_from_user (min BUF_LEN length)
        (copy_from_user s.control_signal buffer (min BUF_LEN length)).2] (by rw [hf])]
    simp [Event.isGpio]
  · intro ws hlen
    exact observe_writes_congr ws _ s (by rw [hf]) hlen

/-- C5, amended, at a concrete input: a write of length 2 with one readable
byte `'1'` to the loaded driver returns `-EFAULT` and leaves the offset at 5;
the writes "9" and "0x" after it are observed as without it. -/
theorem device_write_fault_effect_witness :
    ¬ readable [CHAR_1] 2 ∧
    (device_write (led_init (Sys.boot Host.idle)).2 [CHAR_1] 2 5).ret = -EFAULT ∧
    (device_write (led_init (Sys.boot Host.idle)).2 [CHAR_1] 2 5).offset = 5 ∧
    observe_writes (device_write (led_init (Sys.boot Host.idle)).2 [CHAR_1] 2 5).sys
        [⟨[57], 1, 0⟩, ⟨[CHAR_0, 120], 2, 1⟩]
      = observe_writes (led_init (Sys.boot Host.idle)).2
        [⟨[57], 1, 0⟩, ⟨[CHAR_0, 120], 2, 1⟩] :=
  ⟨by decide,
    (device_write_fault_effect (led_init (Sys.boot Host.idle)).2 [CHAR_1] 2 5 (by decide)).1,
    (device_write_fault_effect (led_init (Sys.boot Host.idle)).2 [CHAR_1] 2 5 (by decide)).2.1,
    (device_write_fault_effect (led_init (Sys.boot Host.idle)).2 [CHAR_1] 2 5
      (by decide)).2.2.2.2.2.2.2.2 [⟨[57], 1, 0⟩, ⟨[CHAR_0, 120], 2, 1⟩] (by decide)⟩

/-- C4 fails on the code: after a write of "1" to the loaded driver, a write
of length 0 returns 0 but interprets the stale staging byte and calls
`gpio_set_value(4, 1)`; the first write after loading, if of length 0, takes
the warning path; and after a faulted write that left `'1'` in the staging
buffer, a write of length 0 turns the line from off to on. -/
theorem device_write_zero_length_dispatches :
    (device_write (device_write (led_init (Sys.boot Host.idle)).2 [CHAR_1] 1 0).sys
      [] 0 1).ret = 0 ∧
    newEvents (device_write (led_init (Sys.boot Host.idle)).2 [CHAR_1] 1 0).sys
      (device_write (device_write (led_init (Sys.boot Host.idle)).2 [CHAR_1] 1 0).sys
        [] 0 1).sys
      = [.printk .info "device_write(%p,%p,%ld)", .copy_from_user 0 0,
         .gpio_set_value 4 1, .printk .info "LED ON"] ∧
    newEvents (led_init (Sys.boot Host.idle)).2
      (device_write (led_init (Sys.boot Host.idle)).2 [] 0 0).sys
      = [.printk .info "device_write(%p,%p,%ld)", .copy_from_user 0 0,
         .printk .warn "Invalid value!\n"] ∧
    (device_write (led_init (Sys.boot Host.idle)).2 [CHAR_1] 2 0).sys.currentState = false ∧
    (device_write (device_write (led_init (Sys.boot Host.idle)).2 [CHAR_1] 2 0).sys
      [] 0 0).sys.currentState = true := by
  decide

/-! ## Facts about `led_init` -/

theorem injected_neg (e : Nat) (h : injected e = true) : -(e : Int) < 0 := by
  simp only [injected, Bool.and_eq_true, decide_eq_true_eq] at h
  omega

theorem leds0_flags : leds0.flags = 0 := by decide

theorem leds0_gpio : leds0.gpio = 4 := by decide

theorem leds0_label : leds0.label = "LED 1" := by decide

/-- The run of `led_init` when all five steps succeed. -/
theorem led_init_ok (s : Sys) (h1 : ¬ s.host.fails_identity) (h2 : ¬ s.host.fails_group)
    (h3 : ¬ s.host.fails_node) (h4 : ¬ s.host.fails_claim) (h5 : ¬ s.host.fails_configure) :
    led_init s = (0, { s with
      cls := .ok DEVICE_NAME
      dev := .ok (MKDEV MAJOR_NUM 0)
      host := s.host.after 5
      trace := s.trace ++ [
        .register_chrdev MAJOR_NUM DEVICE_NAME 0,
        .class_create DEVICE_NAME (.ok DEVICE_NAME),
        .device_create (.ok DEVICE_NAME) (MKDEV MAJOR_NUM 0) DEVICE_NAME (.ok (MKDEV MAJOR_NUM 0)),
        .printk .info "Device created on /dev/%s\n",
        .gpio_request leds0.gpio leds0.label 0,
        .gpio_direction_output leds0.gpio leds0.flags 0] }) := by
  simp only [Host.fails_identity, Host.fails_group, Host.fails_node, Host.fails_claim,
    Host.fails_configure, not_or, Bool.not_eq_true] at h1 h2 h3 h4 h5
  simp [led_init, register_chrdev, class_create, device_create, gpio_request,
    gpio_direction_output, gpio_set_value, Sys.emit, IS_ERR, Host.after, h1, h2, h3, h4, h5,
    leds0_flags]

theorem errno_of_neg (fault : Nat) (taken : Int) (ht : 0 < taken) :
    errno_of fault taken < 0 := by
  unfold errno_of
  by_cases hi : injected fault = true
  · simpa [hi] using injected_neg fault hi
  · simp [hi]; omega

/-- The run of `led_init` when step (a), identity registration, fails. -/
theorem led_init_fail_identity (s : Sys) (h1 : s.host.fails_identity) :
    led_init s = (errno_of s.host.faults.register_chrdev EBUSY, { s with
      trace := s.trace ++ [
        .register_chrdev MAJOR_NUM DEVICE_NAME (errno_of s.host.faults.register_chrdev EBUSY),
        .printk .alert "%s failed with %d\n"] }) := by
  have hneg := errno_of_neg s.host.faults.register_chrdev EBUSY (by decide)
  unfold errno_of at hneg ⊢
  by_cases hi : injected s.host.faults.register_chrdev = true
  · simp only [hi, if_true] at hneg
    simp [led_init, register_chrdev, Sys.emit, hi, hneg]
  · have hm : MAJOR_NUM ∈ s.host.chrdevs := h1.resolve_left hi
    simp only [hi] at hneg
    simp [led_init, register_chrdev, Sys.emit, hi, hm, EBUSY]

/-- The run of `led_init` when step (b), group creation, is the first to fail. -/
theorem led_init_fail_group (s : Sys) (h1 : ¬ s.host.fails_identity) (h2 : s.host.fails_group) :
    led_init s = (errno_of s.host.faults.class_create EEXIST, { s with
      cls := .err (errno_of s.host.faults.class_create EEXIST)
      trace := s.trace ++ [
        .register_chrdev MAJOR_NUM DEVICE_NAME 0,
        .class_create DEVICE_NAME (.err (errno_of s.host.faults.class_create EEXIST)),
        .printk .err "Failed to create class for device\n",
        .unregister_chrdev MAJOR_NUM DEVICE_NAME] }) := by
  simp only [Host.fails_identity, not_or, Bool.not_eq_true] at h1
  unfold errno_of
  by_cases hi : injected s.host.faults.class_create = true
  · simp [led_init, fail1, register_chrdev, unregister_chrdev, class_create, Sys.emit, IS_ERR,
      PTR_ERR, h1, hi]
  · have hm : DEVICE_NAME ∈ s.host.classes := h2.resolve_left hi
    simp [led_init, fail1, register_chrdev, unregister_chrdev, class_create, Sys.emit, IS_ERR,
      PTR_ERR, h1, hi, hm]

/-- The run of `led_init` when step (c), node creation, is the first to fail. -/
theorem led_init_fail_node (s : Sys) (h1 : ¬ s.host.fails_identity) (h2 : ¬ s.host.fails_group)
    (h3 : s.host.fails_node) :
    led_init s = (errno_of s.host.faults.device_create EEXIST, { s with
      cls := .ok DEVICE_NAME
      dev := .err (errno_of s.host.faults.device_create EEXIST)
      trace := s.trace ++ [
        .register_chrdev MAJOR_NUM DEVICE_NAME 0,
        .class_create DEVICE_NAME (.ok DEVICE_NAME),
        .device_create (.ok DEVICE_NAME) (MKDEV MAJOR_NUM 0) DEVICE_NAME
          (.err (errno_of s.host.faults.device_create EEXIST)),
        .printk .err "Failed to create the device file\n",
        .class_destroy (.ok DEVICE_NAME),
        .unregister_chrdev MAJOR_NUM DEVICE_NAME] }) := by
  simp only [Host.fails_identity, Host.fails_group, not_or, Bool.not_eq_true] at h1 h2
  unfold errno_of
  by_cases hi : injected s.host.faults.device_create = true
  · simp [led_init, fail1, fail2, register_chrdev, unregister_chrdev, class_create,
      class_destroy, device_create, Sys.emit, IS_ERR, PTR_ERR, h1, h2, hi]
  · have hm : (DEVICE_NAME, MKDEV MAJOR_NUM 0) ∈ s.host.devices := h3.resolve_left hi
    simp [led_init, fail1, fail2, register_chrdev, unregister_chrdev, class_create,
      class_destroy, device_create, Sys.emit, IS_ERR, PTR_ERR, h1, h2, hi, hm]

/-- The run of `led_init` when step (d), the line claim, is the first to fail. -/
theorem led_init_fail_claim (s : Sys) (h1 : ¬ s.host.fails_identity) (h2 : ¬ s.host.fails_group)
    (h3 : ¬ s.host.fails_node) (h4 : s.host.fails_claim) :
    led_init s = (errno_of s.host.faults.gpio_request EBUSY, { s with
      cls := .ok DEVICE_NAME
      dev := .ok (MKDEV MAJOR_NUM 0)
      trace := s.trace ++ [
        .register_chrdev MAJOR_NUM DEVICE_NAME 0,
        .class_create DEVICE_NAME (.ok DEVICE_NAME),
        .device_create (.ok DEVICE_NAME) (MKDEV MAJOR_NUM 0) DEVICE_NAME (.ok (MKDEV MAJOR_NUM 0)),
        .printk .info "Device created on /dev/%s\n",
        .gpio_request leds0.gpio leds0.label (errno_of s.host.faults.gpio_request EBUSY),
        .printk .err "Unable to request GPIOs for LEDs: %d\n",
        .device_destroy (.ok DEVICE_NAME) (MKDEV MAJOR_NUM 0),
        .class_destroy (.ok DEVICE_NAME),
        .unregister_chrdev MAJOR_NUM DEVICE_NAME] }) := by
  simp only [Host.fails_identity, Host.fails_group, Host.fails_node, not_or,
    Bool.not_eq_true] at h1 h2 h3
  have hneg := errno_of_neg s.host.faults.gpio_request EBUSY (by decide)
  unfold errno_of at hneg ⊢
  by_cases hi : injected s.host.faults.gpio_request = true
  · simp only [hi, if_true] at hneg
    simp [led_init, fail1, fail2, fail3, register_chrdev, unregister_chrdev, class_create,
      class_destroy, device_create, device_destroy, gpio_request, Sys.emit, IS_ERR, PTR_ERR,
      h1, h2, h3, hi, hneg.ne]
  · have hm : leds0.gpio ∈ s.host.gpios := h4.resolve_left hi
    simp only [hi] at hneg
    simp [led_init, fail1, fail2, fail3, register_chrdev, unregister_chrdev, class_create,
      class_destroy, device_create, device_destroy, gpio_request, Sys.emit, IS_ERR, PTR_ERR,
      h1, h2, h3, hi, hm, EBUSY]

/-- The run of `led_init` when step (e), the direction, is the first to fail. -/
theorem led_init_fail_configure (s : Sys) (h1 : ¬ s.host.fails_identity)
    (h2 : ¬ s.host.fails_group) (h3 : ¬ s.host.fails_node) (h4 : ¬ s.host.fails_claim)
    (h5 : s.host.fails_configure) :
    led_init s = (-(s.host.faults.gpio_direction_output : Int), { s with
      cls := .ok DEVICE_NAME
      dev := .ok (MKDEV MAJOR_NUM 0)
      trace := s.trace ++ [
        .register_chrdev MAJOR_NUM DEVICE_NAME 0,
        .class_create DEVICE_NAME (.ok DEVICE_NAME),
        .device_create (.ok DEVICE_NAME) (MKDEV MAJOR_NUM 0) DEVICE_NAME (.ok (MKDEV MAJOR_NUM 0)),
        .printk .info "Device created on /dev/%s\n",
        .gpio_request leds0.gpio leds0.label 0,
        .gpio_direction_output leds0.gpio leds0.flags
          (-(s.host.faults.gpio_direction_output : Int)),
        .printk .err "Failed to set GPIO %d direction\n",
        .gpio_free leds0.gpio,
        .device_destroy (.ok DEVICE_NAME) (MKDEV MAJOR_NUM 0),
        .class_destroy (.ok DEVICE_NAME),
        .unregister_chrdev MAJOR_NUM DEVICE_NAME] }) := by
  simp only [Host.fails_identity, Host.fails_group, Host.fails_node, Host.fails_claim,
    not_or, Bool.not_eq_true] at h1 h2 h3 h4
  simp only [Host.fails_configure] at h5
  have hneg := injected_neg _ h5
  simp [led_init, fail1, fail2, fail3, fail4, register_chrdev, unregister_chrdev, class_create,
    class_destroy, device_create, device_destroy, gpio_request, gpio_free,
    gpio_direction_output, Sys.emit, IS_ERR, PTR_ERR, h1, h2, h3, h4, h5, hneg.ne]

/-! ## The reference startup against the host conditions -/

theorem firstFailure_identity (h : Host) (h1 : h.fails_identity) :
    firstFailure Step.all h = some (.identity, errno_of h.faults.register_chrdev EBUSY) := by
  unfold errno_of
  simp only [Host.fails_identity, MAJOR_NUM] at h1
  by_cases hi : injected h.faults.register_chrdev = true
  · have hneg := injected_neg _ hi
    simp [firstFailure, Step.all, Step.attempt, register_chrdev, hi, hneg.ne]
  · have hm := h1.resolve_left hi
    simp [firstFailure, Step.all, Step.attempt, register_chrdev, hi, hm, EBUSY]

theorem firstFailure_group (h : Host) (h1 : ¬ h.fails_identity) (h2 : h.fails_group) :
    firstFailure Step.all h = some (.group, errno_of h.faults.class_create EEXIST) := by
  unfold errno_of
  simp only [Host.fails_identity, Host.fails_group, MAJOR_NUM, DEVICE_NAME, not_or,
    Bool.not_eq_true] at h1 h2
  by_cases hi : injected h.faults.class_create = true
  · have hneg := injected_neg _ hi
    simp [firstFailure, Step.all, Step.attempt, register_chrdev, class_create, PTR_ERR, h1, hi,
      hneg.ne]
  · have hm := h2.resolve_left hi
    simp [firstFailure, Step.all, Step.attempt, register_chrdev, class_create, PTR_ERR, h1, hi,
      hm, EEXIST]

theorem firstFailure_node (h : Host) (h1 : ¬ h.fails_identity) (h2 : ¬ h.fails_group)
    (h3 : h.fails_node) :
    firstFailure Step.all h = some (.node, errno_of h.faults.device_create EEXIST) := by
  unfold errno_of
  simp only [Host.fails_identity, Host.fails_group, Host.fails_node, MAJOR_NUM, DEVICE_NAME,
    not_or, Bool.not_eq_true] at h1 h2 h3
  by_cases hi : injected h.faults.device_create = true
  · have hneg := injected_neg _ hi
    simp [firstFailure, Step.all, Step.attempt, register_chrdev, class_create, device_create,
      PTR_ERR, h1, h2, hi, hneg.ne]
  · have hm := h3.resolve_left hi
    simp [firstFailure, Step.all, Step.attempt, register_chrdev, class_create, device_create,
      PTR_ERR, h1, h2, hi, hm, EEXIST]

theorem firstFailure_claim (h : Host) (h1 : ¬ h.fails_identity) (h2 : ¬ h.fails_group)
    (h3 : ¬ h.fails_node) (h4 : h.fails_claim) :
    firstFailure Step.all h = some (.claim, errno_of h.faults.gpio_request EBUSY) := by
  unfold errno_of
  simp only [Host.fails_identity, Host.fails_group, Host.fails_node, Host.fails_claim,
    MAJOR_NUM, DEVICE_NAME, leds0_gpio, not_or, Bool.not_eq_true] at h1 h2 h3 h4
  by_cases hi : injected h.faults.gpio_request = true
  · have hneg := injected_neg _ hi
    simp [firstFailure, Step.all, Step.attempt, register_chrdev, class_create, device_create,
      gpio_request, PTR_ERR, h1, h2, h3, hi, hneg.ne]
  · have hm := h4.resolve_left hi
    simp [firstFailure, Step.all, Step.attempt, register_chrdev, class_create, device_create,
      gpio_request, PTR_ERR, h1, h2, h3, hi, hm, EBUSY]

theorem firstFailure_configure (h : Host) (h1 : ¬ h.fails_identity) (h2 : ¬ h.fails_group)
    (h3 : ¬ h.fails_node) (h4 : ¬ h.fails_claim) (h5 : h.fails_configure) :
    firstFailure Step.all h
      = some (.configure, -(h.faults.gpio_direction_output : Int)) := by
  simp only [Host.fails_identity, Host.fails_group, Host.fails_node, Host.fails_claim,
    Host.fails_configure, MAJOR_NUM, DEVICE_NAME, leds0_gpio, not_or,
    Bool.not_eq_true] at h1 h2 h3 h4 h5
  have hneg := injected_neg _ h5
  simp [firstFailure, Step.all, Step.attempt, register_chrdev, class_create, device_create,
    gpio_request, gpio_direction_output, PTR_ERR, h1, h2, h3, h4, h5, hneg.ne]

theorem firstFailure_none (h : Host) (h1 : ¬ h.fails_identity) (h2 : ¬ h.fails_group)
    (h3 : ¬ h.fails_node) (h4 : ¬ h.fails_claim) (h5 : ¬ h.fails_configure) :
    firstFailure Step.all h = none := by
  simp only [Host.fails_identity, Host.fails_group, Host.fails_node, Host.fails_claim,
    Host.fails_configure, MAJOR_NUM, DEVICE_NAME, leds0_gpio, not_or,
    Bool.not_eq_true] at h1 h2 h3 h4 h5
  simp [firstFailure, Step.all, Step.attempt, register_chrdev, class_create, device_create,
    gpio_request, gpio_direction_output, PTR_ERR, h1, h2, h3, h4, h5]

theorem firstFailure_none_iff (h : Host) :
    firstFailure Step.all h = none ↔
      (¬ h.fails_identity ∧ ¬ h.fails_group ∧ ¬ h.fails_node ∧ ¬ h.fails_claim ∧
        ¬ h.fails_configure) := by
  constructor
  · intro hn
    by_cases h1 : h.fails_identity
    · rw [firstFailure_identity h h1] at hn; cases hn
    by_cases h2 : h.fails_group
    · rw [firstFailure_group h h1 h2] at hn; cases hn
    by_cases h3 : h.fails_node
    · rw [firstFailure_node h h1 h2 h3] at hn; cases hn
    by_cases h4 : h.fails_claim
    · rw [firstFailure_claim h h1 h2 h3 h4] at hn; cases hn
    by_cases h5 : h.fails_configure
    · rw [firstFailure_configure h h1 h2 h3 h4 h5] at hn; cases hn
    exact ⟨h1, h2, h3, h4, h5⟩
  · rintro ⟨h1, h2, h3, h4, h5⟩
    exact firstFailure_none h h1 h2 h3 h4 h5

theorem led_init_ret_zero_iff (s : Sys) :
    (led_init s).1 = 0 ↔
      (¬ s.host.fails_identity ∧ ¬ s.host.fails_group ∧ ¬ s.host.fails_node ∧
        ¬ s.host.fails_claim ∧ ¬ s.host.fails_configure) := by
  constructor
  · intro hz
    by_cases h1 : s.host.fails_identity
    · rw [led_init_fail_identity s h1] at hz
      exact absurd hz (errno_of_neg _ EBUSY (by decide)).ne
    by_cases h2 : s.host.fails_group
    · rw [led_init_fail_group s h1 h2] at hz
      exact absurd hz (errno_of_neg _ EEXIST (by decide)).ne
    by_cases h3 : s.host.fails_node
    · rw [led_init_fail_node s h1 h2 h3] at hz
      exact absurd hz (errno_of_neg _ EEXIST (by decide)).ne
    by_cases h4 : s.host.fails_claim
    · rw [led_init_fail_claim s h1 h2 h3 h4] at hz
      exact absurd hz (errno_of_neg _ EBUSY (by decide)).ne
    by_cases h5 : s.host.fails_configure
    · rw [led_init_fail_configure s h1 h2 h3 h4 h5] at hz
      exact absurd hz (injected_neg _ h5).ne
    exact ⟨h1, h2, h3, h4, h5⟩
  · rintro ⟨h1, h2, h3, h4, h5⟩
    rw [led_init_ok s h1 h2 h3 h4 h5]

/-! ## Claims about `led_init` -/

/-- C1: whichever of the five startup steps is the first to fail on the host,
`led_init` returns a non-zero error; its lifecycle calls are the attempts of
the steps up to the failing one, in order, followed by the undoing of exactly
the steps that completed, in reverse order of completion; and the host
resource tables (identities, groups, nodes, claimed lines) are as before. -/
theorem led_init_rollback (s : Sys) (k : Step) (e : Int)
    (hf : firstFailure Step.all s.host = some (k, e)) :
    (led_init s).1 ≠ 0 ∧
    actions (newEvents s (led_init s).2)
      = (Step.before k ++ [k]).map Action.attempt ++ (Step.before k).reverse.map Action.undo ∧
    (led_init s).2.host.resources = s.host.resources := by
  by_cases h1 : s.host.fails_identity
  · rw [firstFailure_identity _ h1] at hf
    simp only [Option.some.injEq, Prod.mk.injEq] at hf
    obtain ⟨rfl, rfl⟩ := hf
    rw [led_init_fail_identity s h1]
    refine ⟨(errno_of_neg _ EBUSY (by decide)).ne, ?_, rfl⟩
    simp [actions, newEvents, Event.action?, Step.before, Step.all]
  by_cases h2 : s.host.fails_group
  · rw [firstFailure_group _ h1 h2] at hf
    simp only [Option.some.injEq, Prod.mk.injEq] at hf
    obtain ⟨rfl, rfl⟩ := hf
    rw [led_init_fail_group s h1 h2]
    refine ⟨(errno_of_neg _ EEXIST (by decide)).ne, ?_, rfl⟩
    simp [actions, newEvents, Event.action?, Step.before, Step.all]
  by_cases h3 : s.host.fails_node
  · rw [firstFailure_node _ h1 h2 h3] at hf
    simp only [Option.some.injEq, Prod.mk.injEq] at hf
    obtain ⟨rfl, rfl⟩ := hf
    rw [led_init_fail_node s h1 h2 h3]
    refine ⟨(errno_of_neg _ EEXIST (by decide)).ne, ?_, rfl⟩
    simp [actions, newEvents, Event.action?, Step.before, Step.all]
  by_cases h4 : s.host.fails_claim
  · rw [firstFailure_claim _ h1 h2 h3 h4] at hf
    simp only [Option.some.injEq, Prod.mk.injEq] at hf
    obtain ⟨rfl, rfl⟩ := hf
    rw [led_init_fail_claim s h1 h2 h3 h4]
    refine ⟨(errno_of_neg _ EBUSY (by decide)).ne, ?_, rfl⟩
    simp [actions, newEvents, Event.action?, Step.before, Step.all]
  by_cases h5 : s.host.fails_configure
  · rw [firstFailure_configure _ h1 h2 h3 h4 h5] at hf
    simp only [Option.some.injEq, Prod.mk.injEq] at hf
    obtain ⟨rfl, rfl⟩ := hf
    rw [led_init_fail_configure s h1 h2 h3 h4 h5]
    refine ⟨(injected_neg _ h5).ne, ?_, rfl⟩
    simp [actions, newEvents, Event.action?, Step.before, Step.all]
  rw [firstFailure_none _ h1 h2 h3 h4 h5] at hf
  cases hf

/-- C1 at concrete inputs: for each of the five steps, a host on which that
step is the first to fail (the service reports `ENOMEM`, 12); in particular a
node-creation failure undoes the group, then the identity. -/
theorem led_init_rollback_witness :
    (firstFailure Step.all (Sys.boot (Host.failing .identity 12)).host = some (.identity, -12) ∧
      (led_init (Sys.boot (Host.failing .identity 12))).1 ≠ 0) ∧
    (firstFailure Step.all (Sys.boot (Host.failing .group 12)).host = some (.group, -12) ∧
      (led_init (Sys.boot (Host.failing .group 12))).1 ≠ 0) ∧
    (firstFailure Step.all (Sys.boot (Host.failing .node 12)).host = some (.node, -12) ∧
      actions (newEvents (Sys.boot (Host.failing .node 12))
          (led_init (Sys.boot (Host.failing .node 12))).2)
        = [.attempt .identity, .attempt .group, .attempt .node, .undo .group,
           .undo .identity] ∧
      (led_init (Sys.boot (Host.failing .node 12))).2.host.resources
        = (Host.failing .node 12).resources) ∧
    (firstFailure Step.all (Sys.boot (Host.failing .claim 12)).host = some (.claim, -12) ∧
      (led_init (Sys.boot (Host.failing .claim 12))).1 ≠ 0) ∧
    (firstFailure Step.all (Sys.boot (Host.failing .configure 12)).host
        = some (.configure, -12) ∧
      (led_init (Sys.boot (Host.failing .configure 12))).1 ≠ 0) :=
  ⟨⟨by decide,
      (led_init_rollback (Sys.boot (Host.failing .identity 12)) .identity (-12) (by decide)).1⟩,
   ⟨by decide,
      (led_init_rollback (Sys.boot (Host.failing .group 12)) .group (-12) (by decide)).1⟩,
   ⟨by decide,
      (led_init_rollback (Sys.boot (Host.failing .node 12)) .node (-12) (by decide)).2.1,
      (led_init_rollback (Sys.boot (Host.failing .node 12)) .node (-12) (by decide)).2.2⟩,
   ⟨by decide,
      (led_init_rollback (Sys.boot (Host.failing .claim 12)) .claim (-12) (by decide)).1⟩,
   ⟨by decide,
      (led_init_rollback (Sys.boot (Host.failing .configure 12)) .configure (-12)
        (by decide)).1⟩⟩

/-- C8 as stated fails: on a host where line 4 is high and the direction step
is rejected, step (d) completes (the claim returns 0) and the line is still
high when `led_init` returns; stepping through a load with no failure, the line
is still high after the claim and is low only after the direction step. -/
theorem led_init_claim_leaves_level :
    firstFailure Step.all { Host.lineHigh with faults := ⟨0, 0, 0, 0, 5⟩ }
      = some (.configure, -5) ∧
    Event.gpio_request 4 "LED 1" 0
      ∈ (led_init (Sys.boot { Host.lineHigh with faults := ⟨0, 0, 0, 0, 5⟩ })).2.trace ∧
    (led_init (Sys.boot { Host.lineHigh with faults := ⟨0, 0, 0, 0, 5⟩ })).2.currentState
      = true ∧
    (run 4 (.load, Sys.boot Host.lineHigh)).1 = .at_gpio_direction_output ∧
    (run 4 (.load, Sys.boot Host.lineHigh)).2.currentState = true ∧
    (run 5 (.load, Sys.boot Host.lineHigh)).1 = .returned 0 ∧
    (run 5 (.load, Sys.boot Host.lineHigh)).2.currentState = false := by
  decide

/-- C8, amended: `led_init` returns 0 exactly when all five steps succeed in
the order identity registration (100, "gpio_led"), group creation, node
creation, line claim (line 4), direction configuration; on success its kernel
calls are those five with these arguments, the direction step being passed
`GPIOF_OUT_INIT_LOW`, which is 0, and the line is claimed, an output and off;
on failure the returned value is the error code of the first failing step and
no later step is attempted.  The claim in step (d) does not drive the line: it
leaves every line level as it was, and when step (e) is the first to fail the
line state at return is the state before the call; it is step (e) that, when
it succeeds, drives the line low. -/
theorem led_init_steps (s : Sys) :
    ((led_init s).1 = 0 ↔ firstFailure Step.all s.host = none) ∧
    (firstFailure Step.all s.host = none →
      (newEvents s (led_init s).2).filter Event.isCall =
        [.register_chrdev 100 "gpio_led" 0, .class_create "gpio_led" (.ok "gpio_led"),
         .device_create (.ok "gpio_led") (MKDEV 100 0) "gpio_led" (.ok (MKDEV 100 0)),
         .gpio_request 4 "LED 1" 0, .gpio_direction_output 4 (GPIOF_OUT_INIT_LOW : Nat) 0] ∧
      GPIOF_OUT_INIT_LOW = 0 ∧
      4 ∈ (led_init s).2.host.gpios ∧ 4 ∈ (led_init s).2.host.outputs ∧
      (led_init s).2.currentState = false) ∧
    (∀ k e, firstFailure Step.all s.host = some (k, e) →
      (led_init s).1 = e ∧ attempts (newEvents s (led_init s).2) = Step.before k ++ [k]) ∧
    (∀ e, firstFailure Step.all s.host = some (.configure, e) →
      (led_init s).2.currentState = s.currentState) ∧
    (∀ (h : Host) (g : Nat),
      (gpio_request leds0.gpio leds0.label h).2.lineValue g = h.lineValue g) ∧
    (∀ h : Host, (gpio_direction_output leds0.gpio leds0.flags h).1 = 0 →
      (gpio_direction_output leds0.gpio leds0.flags h).2.lineValue leds0.gpio = false) := by
  refine ⟨?_, ?_, ?_, ?_, ?_, ?_⟩
  · rw [led_init_ret_zero_iff, firstFailure_none_iff]
  · intro hn
    obtain ⟨h1, h2, h3, h4, h5⟩ := (firstFailure_none_iff _).1 hn
    rw [led_init_ok s h1 h2 h3 h4 h5]
    refine ⟨?_, by decide, ?_, ?_, ?_⟩
    · simp [newEvents, Event.isCall, MAJOR_NUM, DEVICE_NAME, leds0_gpio, leds0_flags,
        leds0_label, GPIOF_OUT_INIT_LOW, GPIOF_DIR_OUT, GPIOF_INIT_LOW]
    · simp [Host.after, leds0_gpio]
    · by_cases ho : leds0.gpio ∈ s.host.outputs <;> simp [Host.after, ho, ← leds0_gpio]
    · simp [Sys.currentState, Host.lineValue, Host.after]
  · intro k e hf
    by_cases h1 : s.host.fails_identity
    · rw [firstFailure_identity _ h1] at hf
      simp only [Option.some.injEq, Prod.mk.injEq] at hf
      obtain ⟨rfl, rfl⟩ := hf
      rw [led_init_fail_identity s h1]
      simp [attempts, actions, newEvents, Event.action?, Action.attempted?, Step.before,
        Step.all]
    by_cases h2 : s.host.fails_group
    · rw [firstFailure_group _ h1 h2] at hf
      simp only [Option.some.injEq, Prod.mk.injEq] at hf
      obtain ⟨rfl, rfl⟩ := hf
      rw [led_init_fail_group s h1 h2]
      simp [attempts, actions, newEvents, Event.action?, Action.attempted?, Step.before,
        Step.all]
    by_cases h3 : s.host.fails_node
    · rw [firstFailure_node _ h1 h2 h3] at hf
      simp only [Option.some.injEq, Prod.mk.injEq] at hf
      obtain ⟨rfl, rfl⟩ := hf
      rw [led_init_fail_node s h1 h2 h3]
      simp [attempts, actions, newEvents, Event.action?, Action.attempted?, Step.before,
        Step.all]
    by_cases h4 : s.host.fails_claim
    · rw [firstFailure_claim _ h1 h2 h3 h4] at hf
      simp only [Option.some.injEq, Prod.mk.injEq] at hf
      obtain ⟨rfl, rfl⟩ := hf
      rw [led_init_fail_claim s h1 h2 h3 h4]
      simp [attempts, actions, newEvents, Event.action?, Action.attempted?, Step.before,
        Step.all]
    by_cases h5 : s.host.fails_configure
    · rw [firstFailure_configure _ h1 h2 h3 h4 h5] at hf
      simp only [Option.some.injEq, Prod.mk.injEq] at hf
      obtain ⟨rfl, rfl⟩ := hf
      rw [led_init_fail_configure s h1 h2 h3 h4 h5]
      simp [attempts, actions, newEvents, Event.action?, Action.attempted?, Step.before,
        Step.all]
    rw [firstFailure_none _ h1 h2 h3 h4 h5] at hf
    cases hf
  · intro e hf
    by_cases h1 : s.host.fails_identity
    · rw [firstFailure_identity _ h1] at hf; cases hf
    by_cases h2 : s.host.fails_group
    · rw [firstFailure_group _ h1 h2] at hf; cases hf
    by_cases h3 : s.host.fails_node
    · rw [firstFailure_node _ h1 h2 h3] at hf; cases hf
    by_cases h4 : s.host.fails_claim
    · rw [firstFailure_claim _ h1 h2 h3 h4] at hf; cases hf
    by_cases h5 : s.host.fails_configure
    · rw [led_init_fail_configure s h1 h2 h3 h4 h5]
      rfl
    rw [firstFailure_none _ h1 h2 h3 h4 h5] at hf
    cases hf
  · intro h g
    unfold gpio_request
    split_ifs <;> rfl
  · intro h hz
    have hl := lineValue_set_low h leds0.gpio
    unfold gpio_direction_output at hz ⊢
    split_ifs at hz ⊢ with hi
    · exact absurd hz (injected_neg _ hi).ne
    · simpa [Host.lineValue, leds0_flags] using hl

/-! ## Writes between load and unload -/

theorem Held.update_inert (v : Held) (e : Event) (h : e.action? = none) : v.update e = v := by
  cases e <;> simp [Event.action?] at h <;> rfl

theorem foldl_update_inert (l : List Event) (v : Held) (h : ∀ e ∈ l, e.action? = none) :
    l.foldl Held.update v = v := by
  induction l generalizing v with
  | nil => rfl
  | cons e l ih =>
    simp only [List.foldl_cons]
    rw [Held.update_inert v e (h e (List.mem_cons_self e l))]
    exact ih v (fun x hx => h x (List.mem_cons_of_mem e hx))

theorem held_append (a b : List Event) : held (a ++ b) = b.foldl Held.update (held a) := by
  simp [held, List.foldl_append]

/-- The kernel calls of a write have no lifecycle meaning. -/
theorem device_write_events (s : Sys) (buffer : List Nat) (length : Nat) (offset : Int) :
    ∃ l, (device_write s buffer length offset).sys.trace = s.trace ++ l ∧
      ∀ e ∈ l, e.action? = none := by
  unfold device_write
  simp only [Sys.emit]
  split_ifs
  · exact ⟨_, by simp; rfl, by simp [Event.action?]⟩
  · exact ⟨_, by simp; rfl, by simp [Event.action?]⟩
  · exact ⟨_, by simp; rfl, by simp [Event.action?]⟩
  · exact ⟨_, by simp; rfl, by simp [Event.action?]⟩

/-- A write keeps the handles, the resource tables and the host conditions. -/
theorem device_write_loaded (s : Sys) (h : Host) (buffer : List Nat) (length : Nat)
    (offset : Int) (hl : s.loaded_on h) :
    (device_write s buffer length offset).sys.loaded_on h := by
  unfold Sys.loaded_on at hl ⊢
  unfold device_write
  simp only [Sys.emit]
  split_ifs <;> simp [gpio_set_value] <;> exact hl

theorem run_writes_loaded (ws : List WriteReq) (s : Sys) (h : Host) (hl : s.loaded_on h) :
    (run_writes s ws).loaded_on h := by
  induction ws generalizing s with
  | nil => exact hl
  | cons w ws ih => exact ih _ (device_write_loaded s h w.buffer w.length w.offset hl)

theorem run_writes_held (ws : List WriteReq) (s : Sys) :
    held (run_writes s ws).trace = held s.trace := by
  induction ws generalizing s with
  | nil => rfl
  | cons w ws ih =>
    simp only [run_writes]
    rw [ih]
    obtain ⟨l, hl, hin⟩ := device_write_events s w.buffer w.length w.offset
    rw [hl, held_append, foldl_update_inert l _ hin]

theorem led_init_loaded (s : Sys) (hz : (led_init s).1 = 0) :
    (led_init s).2.loaded_on s.host := by
  obtain ⟨h1, h2, h3, h4, h5⟩ := (led_init_ret_zero_iff s).1 hz
  rw [led_init_ok s h1 h2 h3 h4 h5]
  simp [Sys.loaded_on, Host.after]

/-! ## `led_exit` -/

/-- The run of `led_exit` from a loaded module. -/
theorem led_exit_loaded (s : Sys) (h : Host) (hl : s.loaded_on h) :
    (led_exit s).trace = s.trace ++ [.gpio_set_value 4 0, .gpio_free 4,
      .device_destroy (.ok "gpio_led") (MKDEV 100 0), .class_destroy (.ok "gpio_led"),
      .unregister_chrdev 100 "gpio_led"] ∧
    (led_exit s).host.resources = h.resources ∧
    (led_exit s).host.faults = h.faults ∧
    (led_exit s).currentState = false := by
  obtain ⟨hc, _, h1, h2, h3, h4, h5⟩ := hl
  refine ⟨?_, ?_, ?_, ?_⟩
  · simp [led_exit, Sys.emit, hc, leds0_gpio, MAJOR_NUM, DEVICE_NAME]
  · simp [led_exit, Sys.emit, hc, Host.resources, unregister_chrdev, class_destroy,
      device_destroy, gpio_free, gpio_set_value, h1, h2, h3, h4]
  · simp [led_exit, Sys.emit, hc, unregister_chrdev, class_destroy,
      device_destroy, gpio_free, gpio_set_value, h5]
  · simp [led_exit, Sys.emit, hc, Sys.currentState, Host.lineValue, unregister_chrdev,
      class_destroy, device_destroy, gpio_free, gpio_set_value]

/-- Whether a startup step fails depends on the resource tables and the host
conditions only. -/
theorem fails_congr (h h2 : Host) (hr : h2.resources = h.resources)
    (hf : h2.faults = h.faults) :
    (h2.fails_identity ↔ h.fails_identity) ∧ (h2.fails_group ↔ h.fails_group) ∧
    (h2.fails_node ↔ h.fails_node) ∧ (h2.fails_claim ↔ h.fails_claim) ∧
    (h2.fails_configure ↔ h.fails_configure) := by
  simp only [Host.resources, Prod.mk.injEq] at hr
  obtain ⟨r1, r2, r3, r4⟩ := hr
  simp [Host.fails_identity, Host.fails_group, Host.fails_node, Host.fails_claim,
    Host.fails_configure, r1, r2, r3, r4, hf]

/-- C7: from every state reached by a successful `led_init` followed by any
sequence of writes, `led_exit` calls, in this order, `gpio_set_value(4, 0)`,
`gpio_free(4)`, `device_destroy`, `class_destroy` and `unregister_chrdev`: it
drives the line off and then undoes the acquisitions of `led_init` (identity,
group, node, claim, in that order) in exact reverse.  Afterwards the line is
off, no handle or claim is held, the resource tables are those before the
load, and a fresh `led_init` on the resulting host returns 0 again. -/
theorem led_exit_mirrors_start (h : Host) (ws : List WriteReq)
    (hz : (led_init (Sys.boot h)).1 = 0) :
    attempts (led_init (Sys.boot h)).2.trace = [.identity, .group, .node, .claim, .configure] ∧
    newEvents (run_writes (led_init (Sys.boot h)).2 ws)
        (led_exit (run_writes (led_init (Sys.boot h)).2 ws))
      = [.gpio_set_value 4 0, .gpio_free 4, .device_destroy (.ok "gpio_led") (MKDEV 100 0),
         .class_destroy (.ok "gpio_led"), .unregister_chrdev 100 "gpio_led"] ∧
    actions (newEvents (run_writes (led_init (Sys.boot h)).2 ws)
        (led_exit (run_writes (led_init (Sys.boot h)).2 ws)))
      = [.undo .claim, .undo .node, .undo .group, .undo .identity] ∧
    (led_exit (run_writes (led_init (Sys.boot h)).2 ws)).currentState = false ∧
    held (led_exit (run_writes (led_init (Sys.boot h)).2 ws)).trace
      = ⟨false, false, false, false⟩ ∧
    (led_exit (run_writes (led_init (Sys.boot h)).2 ws)).host.resources = h.resources ∧
    (led_init (Sys.boot (led_exit (run_writes (led_init (Sys.boot h)).2 ws)).host)).1 = 0 := by
  have hl0 : (led_init (Sys.boot h)).2.loaded_on h := led_init_loaded (Sys.boot h) hz
  have hl := run_writes_loaded ws _ h hl0
  obtain ⟨ht, hr, hf, hc⟩ := led_exit_loaded _ h hl
  have hcond := (led_init_ret_zero_iff (Sys.boot h)).1 hz
  have hne : newEvents (run_writes (led_init (Sys.boot h)).2 ws)
      (led_exit (run_writes (led_init (Sys.boot h)).2 ws))
      = [.gpio_set_value 4 0, .gpio_free 4, .device_destroy (.ok "gpio_led") (MKDEV 100 0),
         .class_destroy (.ok "gpio_led"), .unregister_chrdev 100 "gpio_led"] :=
    newEvents_append _ _ _ ht
  refine ⟨?_, hne, ?_, hc, ?_, hr, ?_⟩
  · obtain ⟨h1, h2, h3, h4, h5⟩ := hcond
    rw [led_init_ok _ h1 h2 h3 h4 h5]
    simp [attempts, actions, Event.action?, Action.attempted?, Sys.boot]
  · rw [hne]
    simp [actions, Event.action?]
  · rw [ht, held_append, run_writes_held]
    obtain ⟨h1, h2, h3, h4, h5⟩ := hcond
    rw [led_init_ok _ h1 h2 h3 h4 h5]
    simp [held, Held.update, Sys.boot]
  · rw [led_init_ret_zero_iff]
    obtain ⟨c1, c2, c3, c4, c5⟩ := fails_congr h _ hr hf
    obtain ⟨h1, h2, h3, h4, h5⟩ := hcond
    exact ⟨fun x => h1 (c1.1 x), fun x => h2 (c2.1 x), fun x => h3 (c3.1 x),
      fun x => h4 (c4.1 x), fun x => h5 (c5.1 x)⟩

/-- C7 at a concrete input: load on the idle host, write "1", "0x" and "9",
then unload: the line is off, the tables are those of the idle host and a
reload returns 0. -/
theorem led_exit_mirrors_start_witness :
    (led_init (Sys.boot Host.idle)).1 = 0 ∧
    (led_exit (run_writes (led_init (Sys.boot Host.idle)).2
      [⟨[CHAR_1], 1, 0⟩, ⟨[CHAR_0, 120], 2, 1⟩, ⟨[57], 1, 3⟩])).currentState = false ∧
    (led_exit (run_writes (led_init (Sys.boot Host.idle)).2
      [⟨[CHAR_1], 1, 0⟩, ⟨[CHAR_0, 120], 2, 1⟩, ⟨[57], 1, 3⟩])).host.resources
      = Host.idle.resources ∧
    (led_init (Sys.boot (led_exit (run_writes (led_init (Sys.boot Host.idle)).2
      [⟨[CHAR_1], 1, 0⟩, ⟨[CHAR_0, 120], 2, 1⟩, ⟨[57], 1, 3⟩])).host)).1 = 0 :=
  ⟨by decide,
    (led_exit_mirrors_start Host.idle
      [⟨[CHAR_1], 1, 0⟩, ⟨[CHAR_0, 120], 2, 1⟩, ⟨[57], 1, 3⟩] (by decide)).2.2.2.1,
    (led_exit_mirrors_start Host.idle
      [⟨[CHAR_1], 1, 0⟩, ⟨[CHAR_0, 120], 2, 1⟩, ⟨[57], 1, 3⟩] (by decide)).2.2.2.2.2.1,
    (led_exit_mirrors_start Host.idle
      [⟨[CHAR_1], 1, 0⟩, ⟨[CHAR_0, 120], 2, 1⟩, ⟨[57], 1, 3⟩] (by decide)).2.2.2.2.2.2⟩

/-! ## Last command wins -/

theorem device_write_state (s : Sys) (w : WriteReq) (hv : w.valid) :
    (device_write s w.buffer w.length w.offset).sys.currentState =
      if w.firstByte = CHAR_0 then false
      else if w.firstByte = CHAR_1 then true
      else s.currentState := by
  obtain ⟨hlen, hread⟩ := hv
  obtain ⟨m, hm⟩ := min_buf_pos w.length hlen
  cases hb : w.buffer with
  | nil =>
    rw [hb] at hread
    unfold readable at hread
    simp only [List.length_nil] at hread
    omega
  | cons b rest =>
    rw [hb] at hread
    rw [device_write_readable s b rest w.length w.offset hlen hread]
    simp only [WriteReq.firstByte, hb, List.headD_cons]
    by_cases h0 : b = CHAR_0
    · simpa [h0, Sys.currentState] using lineValue_set_low s.host leds0.gpio
    · by_cases h1 : b = CHAR_1
      · simpa [h1, Sys.currentState, CHAR_0, CHAR_1] using lineValue_set_high s.host leds0.gpio
      · simp [h0, h1, Sys.currentState]

theorem lastCommand_cons (b : Nat) (bs : List Nat) :
    lastCommand (b :: bs) =
      match lastCommand bs with
      | some c => some c
      | none => if recognised b then some b else none := by
  unfold lastCommand
  rw [List.reverse_cons, List.find?_append]
  cases hfind : List.find? recognised bs.reverse with
  | some c => simp
  | none =>
    by_cases hr : recognised b = true
    · simp [List.find?, hr]
    · simp [List.find?, hr]

/-- The line state after a sequence of valid writes, from any state. -/
theorem run_writes_state (ws : List WriteReq) (s : Sys) (hv : ∀ w ∈ ws, w.valid) :
    (run_writes s ws).currentState =
      match lastCommand (ws.map WriteReq.firstByte) with
      | some b => decide (b = CHAR_1)
      | none => s.currentState := by
  induction ws generalizing s with
  | nil => simp [run_writes, lastCommand]
  | cons w ws ih =>
    have hw : w.valid := hv w (List.mem_cons_self w ws)
    have hws : ∀ x ∈ ws, x.valid := fun x hx => hv x (List.mem_cons_of_mem w hx)
    simp only [run_writes, List.map_cons]
    rw [ih _ hws, lastCommand_cons]
    cases hl : lastCommand (ws.map WriteReq.firstByte) with
    | some c => rfl
    | none =>
      simp only []
      rw [device_write_state s w hw]
      by_cases h0 : w.firstByte = CHAR_0
      · simp [h0, recognised, CHAR_0, CHAR_1]
      · by_cases h1 : w.firstByte = CHAR_1
        · simp [h1, recognised, CHAR_0, CHAR_1]
        · simp [h0, h1, recognised]

theorem lastCommand_filter (bs : List Nat) :
    lastCommand (bs.filter recognised) = lastCommand bs := by
  induction bs with
  | nil => rfl
  | cons b bs ih =>
    by_cases hr : recognised b = true
    · rw [List.filter_cons_of_pos hr, lastCommand_cons, lastCommand_cons, ih]
    · rw [List.filter_cons_of_neg hr, lastCommand_cons, ih]
      simp only [Bool.not_eq_true] at hr
      cases hl : lastCommand bs with
      | some c => rfl
      | none => simp [hr]

theorem led_init_state_off (s : Sys) (hz : (led_init s).1 = 0) :
    (led_init s).2.currentState = false := by
  obtain ⟨h1, h2, h3, h4, h5⟩ := (led_init_ret_zero_iff s).1 hz
  rw [led_init_ok s h1 h2 h3 h4 h5]
  simp [Sys.currentState, Host.lineValue, Host.after]

theorem run_writes_append (ws ws2 : List WriteReq) (s : Sys) :
    run_writes s (ws ++ ws2) = run_writes (run_writes s ws) ws2 := by
  induction ws generalizing s with
  | nil => rfl
  | cons w ws ih => simp only [List.cons_append, run_writes]; exact ih _

/-- C10: after a successful `led_init`, a sequence of writes of at least one
byte with readable payloads leaves the line on if the most recent first byte
in `'0'`, `'1'` was `'1'`, off if it was `'0'`, and off if there was none.  So
two such sequences with the same recognised first bytes, whatever their second
bytes, lengths, offsets and unrecognised writes in between, end in the same
state; and issuing a write twice ends in the same state as issuing it once. -/
theorem last_command_wins (h : Host) (ws : List WriteReq)
    (hz : (led_init (Sys.boot h)).1 = 0) (hv : ∀ w ∈ ws, w.valid) :
    (run_writes (led_init (Sys.boot h)).2 ws).currentState
      = expectedState (ws.map WriteReq.firstByte) ∧
    (∀ ws2 : List WriteReq, (∀ w ∈ ws2, w.valid) →
      (ws2.map WriteReq.firstByte).filter recognised
        = (ws.map WriteReq.firstByte).filter recognised →
      (run_writes (led_init (Sys.boot h)).2 ws2).currentState
        = (run_writes (led_init (Sys.boot h)).2 ws).currentState) ∧
    (∀ w : WriteReq, w.valid →
      (run_writes (led_init (Sys.boot h)).2 (ws ++ [w, w])).currentState
        = (run_writes (led_init (Sys.boot h)).2 (ws ++ [w])).currentState) := by
  have hoff := led_init_state_off (Sys.boot h) hz
  refine ⟨?_, ?_, ?_⟩
  · rw [run_writes_state ws _ hv, hoff]
    rfl
  · intro ws2 hv2 hsame
    rw [run_writes_state ws _ hv, run_writes_state ws2 _ hv2,
      ← lastCommand_filter (ws2.map WriteReq.firstByte), hsame, lastCommand_filter]
  · intro w hw
    rw [run_writes_append, run_writes_append]
    rw [run_writes_state [w, w] _ (by simpa using hw),
      run_writes_state [w] _ (by simpa using hw)]
    simp only [List.map_cons, List.map_nil]
    rw [lastCommand_cons, lastCommand_cons]
    simp only [lastCommand, List.reverse_nil, List.find?_nil]
    by_cases hr : recognised w.firstByte = true
    · simp [hr]
    · simp [hr]

/-- C10 at a concrete input: after loading on the idle host, the writes "1",
"9", "0x", "1" leave the line on. -/
theorem last_command_wins_witness :
    (led_init (Sys.boot Host.idle)).1 = 0 ∧
    (run_writes (led_init (Sys.boot Host.idle)).2
      [⟨[CHAR_1], 1, 0⟩, ⟨[57], 1, 1⟩, ⟨[CHAR_0, 120], 2, 2⟩, ⟨[CHAR_1, 10], 5, 4⟩]).currentState
      = expectedState [CHAR_1, 57, CHAR_0, CHAR_1] ∧
    expectedState [CHAR_1, 57, CHAR_0, CHAR_1] = true :=
  ⟨by decide,
    (last_command_wins Host.idle
      [⟨[CHAR_1], 1, 0⟩, ⟨[57], 1, 1⟩, ⟨[CHAR_0, 120], 2, 2⟩, ⟨[CHAR_1, 10], 5, 4⟩]
      (by decide) (by decide)).1,
    by decide⟩

/-! ## The lifecycle step relation -/

/-- Running the step function from the entry of `led_init` gives `led_init`. -/
theorem run_led_init (s : Sys) :
    run 9 (.load, s) = (.returned (led_init s).1, (led_init s).2) := by
  by_cases h1 : s.host.fails_identity
  · rw [led_init_fail_identity s h1]
    unfold errno_of
    by_cases hi : injected s.host.faults.register_chrdev = true
    · have hneg := injected_neg _ hi
      simp [run, next, register_chrdev, Sys.emit, hi, hneg]
    · have hm : MAJOR_NUM ∈ s.host.chrdevs := h1.resolve_left hi
      simp [run, next, register_chrdev, Sys.emit, hi, hm, EBUSY]
  by_cases h2 : s.host.fails_group
  · rw [led_init_fail_group s h1 h2]
    simp only [Host.fails_identity, not_or, Bool.not_eq_true] at h1
    unfold errno_of
    by_cases hi : injected s.host.faults.class_create = true
    · simp [run, next, register_chrdev, unregister_chrdev, class_create, Sys.emit, IS_ERR,
        PTR_ERR, h1, hi]
    · have hm : DEVICE_NAME ∈ s.host.classes := h2.resolve_left hi
      simp [run, next, register_chrdev, unregister_chrdev, class_create, Sys.emit, IS_ERR,
        PTR_ERR, h1, hi, hm]
  by_cases h3 : s.host.fails_node
  · rw [led_init_fail_node s h1 h2 h3]
    simp only [Host.fails_identity, Host.fails_group, not_or, Bool.not_eq_true] at h1 h2
    unfold errno_of
    by_cases hi : injected s.host.faults.device_create = true
    · simp [run, next, register_chrdev, unregister_chrdev, class_create,
        class_destroy, device_create, Sys.emit, IS_ERR, PTR_ERR, h1, h2, hi]
    · have hm : (DEVICE_NAME, MKDEV MAJOR_NUM 0) ∈ s.host.devices := h3.resolve_left hi
      simp [run, next, register_chrdev, unregister_chrdev, class_create,
        class_destroy, device_create, Sys.emit, IS_ERR, PTR_ERR, h1, h2, hi, hm]
  by_cases h4 : s.host.fails_claim
  · rw [led_init_fail_claim s h1 h2 h3 h4]
    simp only [Host.fails_identity, Host.fails_group, Host.fails_node, not_or,
      Bool.not_eq_true] at h1 h2 h3
    unfold errno_of
    by_cases hi : injected s.host.faults.gpio_request = true
    · have hneg := injected_neg _ hi
      simp [run, next, register_chrdev, unregister_chrdev, class_create,
        class_destroy, device_create, device_destroy, gpio_request, Sys.emit, IS_ERR, PTR_ERR,
        h1, h2, h3, hi, hneg.ne]
    · have hm : leds0.gpio ∈ s.host.gpios := h4.resolve_left hi
      simp [run, next, register_chrdev, unregister_chrdev, class_create,
        class_destroy, device_create, device_destroy, gpio_request, Sys.emit, IS_ERR, PTR_ERR,
        h1, h2, h3, hi, hm, EBUSY]
  by_cases h5 : s.host.fails_configure
  · rw [led_init_fail_configure s h1 h2 h3 h4 h5]
    simp only [Host.fails_identity, Host.fails_group, Host.fails_node, Host.fails_claim,
      not_or, Bool.not_eq_true] at h1 h2 h3 h4
    simp only [Host.fails_configure] at h5
    have hneg := injected_neg _ h5
    simp [run, next, register_chrdev, unregister_chrdev, class_create,
      class_destroy, device_create, device_destroy, gpio_request, gpio_free,
      gpio_direction_output, Sys.emit, IS_ERR, PTR_ERR, h1, h2, h3, h4, h5, hneg.ne]
  rw [led_init_ok s h1 h2 h3 h4 h5]
  simp only [Host.fails_identity, Host.fails_group, Host.fails_node, Host.fails_claim,
    Host.fails_configure, not_or, Bool.not_eq_true] at h1 h2 h3 h4 h5
  simp [run, next, register_chrdev, class_create, device_create, gpio_request,
    gpio_direction_output, gpio_set_value, Sys.emit, IS_ERR, Host.after, h1, h2, h3, h4, h5,
    leds0_flags]

/-- Running the step function from the entry of `led_exit` gives `led_exit`. -/
theorem run_led_exit (s : Sys) : run 5 (.exit, s) = (.unloaded, led_exit s) := by
  rfl

theorem class_create_cases (name : String) (h : Host) :
    (class_create name h).1 = .ok name ∨ ∃ e, e ≠ 0 ∧ (class_create name h).1 = .err e := by
  unfold class_create
  split_ifs with hi hm
  · exact Or.inr ⟨_, (injected_neg _ hi).ne, rfl⟩
  · exact Or.inr ⟨_, by decide, rfl⟩
  · exact Or.inl rfl

theorem device_create_cases (cls : Ptr String) (devt : Nat) (name : String) (h : Host) :
    (device_create cls devt name h).1 = .ok devt ∨
      ∃ e, e ≠ 0 ∧ (device_create cls devt name h).1 = .err e := by
  unfold device_create
  split_ifs with hi
  · exact Or.inr ⟨_, (injected_neg _ hi).ne, rfl⟩
  · cases cls with
    | null => exact Or.inr ⟨_, by decide, rfl⟩
    | err e => exact Or.inr ⟨_, by decide, rfl⟩
    | ok c =>
      simp only []
      split_ifs
      · exact Or.inr ⟨_, by decide, rfl⟩
      · exact Or.inl rfl

theorem held_emit (s : Sys) (e : Event) : held (s.emit e).trace = (held s.trace).update e := by
  simp [held, Sys.emit, List.foldl_append]

/-- Every kernel call of the driver code keeps the lifecycle invariant. -/
theorem next_good (pc : PC) (s : Sys) (c : PC × Sys) (hg : Good (pc, s))
    (hn : next pc s = some c) : Good c := by
  obtain ⟨hh, he⟩ := hg
  simp only at hh he
  cases pc with
  | load =>
    simp only [next] at hn
    split_ifs at hn with c1
    · cases hn
      refine ⟨?_, trivial⟩
      simp [held_emit, Held.update, c1, c1.ne, expectedHeld, hh]
    · cases hn
      refine ⟨?_, trivial⟩
      simp [held_emit, Held.update, c1, expectedHeld, hh]
  | at_class_create =>
    simp only [next] at hn
    rcases class_create_cases DEVICE_NAME s.host with hok | ⟨e, hne, herr⟩
    · simp only [Sys.emit, hok, IS_ERR] at hn
      cases hn
      refine ⟨?_, trivial⟩
      simp [held, List.foldl_append, Held.update, expectedHeld] at hh ⊢
      simp [hh]
    · simp only [Sys.emit, herr, IS_ERR, PTR_ERR, if_true] at hn
      cases hn
      refine ⟨?_, hne⟩
      simp [held, List.foldl_append, Held.update, expectedHeld] at hh ⊢
      simp [hh]
  | at_device_create =>
    simp only [next] at hn
    rcases device_create_cases s.cls (MKDEV MAJOR_NUM 0) DEVICE_NAME s.host with
      hok | ⟨e, hne, herr⟩
    · simp only [Sys.emit, hok, IS_ERR] at hn
      cases hn
      refine ⟨?_, trivial⟩
      simp [held, List.foldl_append, Held.update, expectedHeld] at hh ⊢
      simp [hh]
    · simp only [Sys.emit, herr, IS_ERR, PTR_ERR, if_true] at hn
      cases hn
      refine ⟨?_, hne⟩
      simp [held, List.foldl_append, Held.update, expectedHeld] at hh ⊢
      simp [hh]
  | at_gpio_request =>
    simp only [next] at hn
    split_ifs at hn with c1
    · cases hn
      refine ⟨?_, c1⟩
      simp [held_emit, Held.update, c1, expectedHeld, hh]
    · cases hn
      refine ⟨?_, trivial⟩
      simp only [ne_eq, not_not] at c1
      simp [held_emit, Held.update, c1, expectedHeld, hh]
  | at_gpio_direction_output =>
    simp only [next] at hn
    split_ifs at hn with c1
    · cases hn
      refine ⟨?_, c1⟩
      simp [held_emit, Held.update, expectedHeld, hh]
    · cases hn
      refine ⟨?_, trivial⟩
      simp [held_emit, Held.update, expectedHeld, hh]
  | fail4 ret =>
    simp only [next] at hn
    cases hn
    exact ⟨by simp [held_emit, Held.update, expectedHeld, hh], he⟩
  | fail3 ret =>
    simp only [next] at hn
    cases hn
    exact ⟨by simp [held_emit, Held.update, expectedHeld, hh], he⟩
  | fail2 ret =>
    simp only [next] at hn
    cases hn
    exact ⟨by simp [held_emit, Held.update, expectedHeld, hh], he⟩
  | fail1 ret =>
    simp only [next] at hn
    cases hn
    have he2 : ret ≠ 0 := he
    exact ⟨by simp [held_emit, Held.update, expectedHeld, hh, he2], trivial⟩
  | returned ret => simp only [next] at hn; cases hn
  | exit =>
    simp only [next] at hn
    cases hn
    exact ⟨by simp [held_emit, Held.update, expectedHeld, hh], trivial⟩
  | exit_gpio_free =>
    simp only [next] at hn
    cases hn
    exact ⟨by simp [held_emit, Held.update, expectedHeld, hh], trivial⟩
  | exit_device_destroy =>
    simp only [next] at hn
    cases hn
    exact ⟨by simp [held_emit, Held.update, expectedHeld, hh], trivial⟩
  | exit_class_destroy =>
    simp only [next] at hn
    cases hn
    exact ⟨by simp [held_emit, Held.update, expectedHeld, hh], trivial⟩
  | exit_unregister_chrdev =>
    simp only [next] at hn
    cases hn
    exact ⟨by simp [held_emit, Held.update, expectedHeld, hh], trivial⟩
  | unloaded => simp only [next] at hn; cases hn

/-- Every step of the lifecycle keeps the invariant. -/
theorem trans_good (c c1 : PC × Sys) (hg : Good c) (ht : Trans c c1) : Good c1 := by
  cases ht with
  | code pc s c1 hn => exact next_good pc s c1 hg hn
  | write s w =>
    obtain ⟨hh, _⟩ := hg
    refine ⟨?_, trivial⟩
    obtain ⟨l, hl, hin⟩ := device_write_events s w.buffer w.length w.offset
    simp only at hh ⊢
    rw [hl, held_append, foldl_update_inert l _ hin, hh]
  | unload s =>
    obtain ⟨hh, _⟩ := hg
    refine ⟨?_, trivial⟩
    simpa [expectedHeld] using hh
  | reload_failed s ret hne =>
    obtain ⟨hh, _⟩ := hg
    refine ⟨?_, trivial⟩
    simpa [expectedHeld, hne] using hh
  | reload s =>
    obtain ⟨hh, _⟩ := hg
    refine ⟨?_, trivial⟩
    simpa [expectedHeld] using hh

theorem reachable_good (h : Host) (c : PC × Sys) (hr : Reachable h c) : Good c := by
  induction hr with
  | start => exact ⟨rfl, trivial⟩
  | step c c1 _ ht ih => exact trans_good c c1 ih ht

theorem expectedHeld_ordered (pc : PC) : (expectedHeld pc).ordered := by
  cases pc <;> simp [expectedHeld, Held.ordered]
  split_ifs <;> simp

/-- The states the step function runs through are reachable. -/
theorem reachable_run (h : Host) (n : Nat) (c : PC × Sys) (hr : Reachable h c) :
    Reachable h (run n c) := by
  induction n generalizing c with
  | zero => exact hr
  | succ n ih =>
    simp only [run]
    cases hn : next c.1 c.2 with
    | none => exact hr
    | some c1 => exact ih c1 (Reachable.step c c1 hr (Trans.code c.1 c.2 c1 hn))

/-! ## Claim about the lifecycle -/

/-- C9: in every state the lifecycle reaches from the unregistered state, by
the kernel calls of `led_init` (rollback included) and `led_exit`, writes to
the loaded module and reloads, the handles valid at that point are in
dependency order: the node handle only with the group handle, the group handle
only with the identity registration, the line claim only with the node
handle. -/
theorem lifecycle_dependency_order (h : Host) (c : PC × Sys) (hr : Reachable h c) :
    (held c.2.trace).ordered := by
  rw [(reachable_good h c hr).1]
  exact expectedHeld_ordered c.1

/-- C9 at concrete states: three kernel calls into a load on the idle host,
where identity, group and node are held and the line is not; and seven calls
into a load whose direction step fails, in the middle of the rollback. -/
theorem lifecycle_dependency_order_witness :
    (Reachable Host.idle (run 3 (.load, Sys.boot Host.idle)) ∧
      held (run 3 (.load, Sys.boot Host.idle)).2.trace = ⟨true, true, true, false⟩ ∧
      (held (run 3 (.load, Sys.boot Host.idle)).2.trace).ordered) ∧
    (Reachable (Host.failing .configure 5)
        (run 7 (.load, Sys.boot (Host.failing .configure 5))) ∧
      (run 7 (.load, Sys.boot (Host.failing .configure 5))).1 = .fail2 (-5) ∧
      (held (run 7 (.load, Sys.boot (Host.failing .configure 5))).2.trace).ordered) :=
  ⟨⟨reachable_run Host.idle 3 _ Reachable.start, by decide,
      lifecycle_dependency_order Host.idle _ (reachable_run Host.idle 3 _ Reachable.start)⟩,
   ⟨reachable_run _ 7 _ Reachable.start, by decide,
      lifecycle_dependency_order _ _ (reachable_run _ 7 _ Reachable.start)⟩⟩

end Led
